import Mathlib

/-!
# AVFlt scan-request broker

A shallow embedding of `src/avflt/avflt_rfs.c` (hook dispatcher, cache probe) and
`src/avflt/avflt_check.c` (event object, request queue, reply matcher, agent codec),
followed by the theorems that settle the specification's claims about them.

Conventions of the embedding
* C `int` values are `Int`; where the C code increments or decrements a counter
  (the id counter, the cache versions, the reference count of an event) the
  model reduces the result to the 32-bit two's-complement range with `wrap32`.
* Pointers to events, inodes, roots, mounts and files are `Nat` addresses; a
  pointer that may be `NULL` is an `Option`.
* Every function runs atomically (the spin locks of the source are not modelled).
* `BUG_ON` and a `NULL` dereference stop the kernel: such functions return `none`.
* An event that `avflt_event_put` has released is no longer an object. Its count
  is zero, so `avflt_event_get` and `avflt_event_put` stop at their `BUG_ON` on it,
  and `avflt_rem_request`, which reads `req_list` before anything else, returns
  `none` for the use of freed memory. The other functions take their event from
  the request queue, from an agent's backlog or from the submitter that allocated
  it, each of which holds a reference.
-/

namespace Avflt

/-! ## Constants -/

/-- Linux `errno` value `EPERM`. -/
def EPERM : Int := 1

/-- Linux `errno` value `ENOENT`. -/
def ENOENT : Int := 2

/-- Linux `errno` value `ENOMEM`. -/
def ENOMEM : Int := 12

/-- Linux `errno` value `EFAULT`. -/
def EFAULT : Int := 14

/-- Linux `errno` value `EINVAL`. -/
def EINVAL : Int := 22

/-- Linux `errno` value `ETIMEDOUT`. -/
def ETIMEDOUT : Int := 110

/-- Linux `FMODE_WRITE` bit of `file->f_mode`. -/
def FMODE_WRITE : Nat := 2

/-- The constants that `avflt.h` declares. The header is not among the sources, so
the code is embedded with their values as a parameter. -/
structure avflt_h where
  AVFLT_FILE_INFECTED : Int
  AVFLT_EVENT_OPEN : Int
  AVFLT_EVENT_CLOSE : Int
  deriving DecidableEq, Repr

/-- Reduction of an integer to the range of a 32-bit C `int` (two's complement). -/
def wrap32 (x : Int) : Int := (x + 2 ^ 31) % 2 ^ 32 - 2 ^ 31

/-- The values a 32-bit C `int` can hold. -/
def is_int (x : Int) : Prop := -(2 ^ 31) ≤ x ∧ x < 2 ^ 31

instance (x : Int) : Decidable (is_int x) := by
  unfold is_int; exact inferInstance

/-! ## Hook dispatcher (`avflt_rfs.c`): verdict evaluation -/

/-- The decision a hook hands back to the filter framework (`enum redirfs_rv`). -/
inductive redirfs_rv where
  | REDIRFS_STOP
  | REDIRFS_CONTINUE
  deriving DecidableEq, Repr

/-- The part of `struct redirfs_args` the broker writes: the hook's integer
return slot `args->rv.rv_int`. -/
structure redirfs_args where
  rv_int : Int
  deriving DecidableEq, Repr

/-- Embedding of `avflt_eval_res` (`avflt_rfs.c`, lines 109-122). -/
def avflt_eval_res (K : avflt_h) (rv : Int) (args : redirfs_args) :
    redirfs_rv × redirfs_args :=
  if rv < 0 then
    (redirfs_rv.REDIRFS_STOP, { args with rv_int := rv })
  else if rv = K.AVFLT_FILE_INFECTED then
    (redirfs_rv.REDIRFS_STOP, { args with rv_int := -EPERM })
  else
    (redirfs_rv.REDIRFS_CONTINUE, args)

/-! ## Data model -/

/-- The fields of `struct inode` the broker reads. -/
structure inode where
  i_size : Int
  i_writecount : Int
  deriving DecidableEq, Repr

/-- The fields of `struct file` the broker reads; `f_dentry` is the address of
the file's dentry, whose `d_inode` is looked up in the state. -/
structure file where
  f_vfsmnt : Nat
  f_dentry : Nat
  f_flags : Int
  f_mode : Nat
  deriving DecidableEq, Repr

/-- The identity of the calling task (`current`). -/
structure task where
  pid : Int
  tgid : Int
  ppid : Int
  uid : Int
  deriving DecidableEq, Repr

/-- Per-root data (`struct avflt_root_data`). -/
structure avflt_root_data where
  cache_enabled : Int
  cache : Int
  cache_ver : Int
  deriving DecidableEq, Repr

/-- Per-inode cache entry (`struct avflt_inode_data`). -/
structure avflt_inode_data where
  root_data : Option Nat
  avflt_cache_ver : Int
  root_cache_ver : Int
  inode_cache_ver : Int
  cache_ver : Int
  state : Int
  deriving DecidableEq, Repr

/-- One pending scan request (`struct avflt_event`). `done` is the counter of the
completion `wait`; `freed` records that `kmem_cache_free` released the object.
Membership in the request list stands for a non-empty `req_list` link. -/
structure avflt_event where
  count : Int
  done : Nat
  type : Int
  id : Int
  fd : Int
  pid : Int
  tgid : Int
  ppid : Int
  ruid : Int
  path : Option (List Nat)
  file : Option Nat
  mnt : Option Nat
  dentry : Option Nat
  flags : Int
  cache : Int
  root_data : Option Nat
  root_cache_ver : Int
  cache_ver : Int
  result : Int
  freed : Bool
  deriving DecidableEq, Repr

/-- The broker's global variables together with the kernel objects it reaches.
* `avflt_request_list`, `avflt_request_accept`, `avflt_cache_ver`,
  `avflt_event_ids`: the globals of `avflt_check.c`;
* `avflt_cache_enabled`, `avflt_reply_timeout`, `avflt_timed_out`: the atomics
  the two files read and write, declared elsewhere;
* `events`: the event objects by address; `d_inode`, `inodes`: dentries and inodes;
* `rfs_root`, `root_data`, `inode_data`: the lookups of the filter framework and
  of the inode-data service; `proc_allow`, `procs`: the agent registry. -/
structure avflt_state where
  avflt_request_list : List Nat
  avflt_request_accept : Int
  avflt_cache_ver : Int
  avflt_event_ids : Int
  avflt_cache_enabled : Int
  avflt_reply_timeout : Int
  avflt_timed_out : Int
  events : Nat → avflt_event
  d_inode : Nat → Option Nat
  inodes : Nat → inode
  rfs_root : Nat → Option Nat
  root_data : Nat → Option avflt_root_data
  inode_data : Nat → Option avflt_inode_data
  proc_allow : Int → Bool
  procs : Int → Option (List Nat)

/-- What the surroundings contribute to one call of the broker.
* `current`: the calling task;
* `kmem_cache_zalloc`: the address of the object the allocator hands out, or
  `none` when it fails;
* `others`: what the other threads do to the state while the caller sleeps in
  `wait_for_completion_interruptible_timeout`;
* `wait`: the value that wait returns (negative: interrupted, `0`: timed out,
  positive: completed);
* `attach`: the entry the inode-data service creates for an inode that has none,
  or `none` when it cannot. -/
structure environment where
  current : task
  kmem_cache_zalloc : Option Nat
  others : avflt_state → avflt_state
  wait : Int
  attach : Option avflt_inode_data

/-- Modelled from the spec: `redirfs_get_root_inode` of the filter framework, which
is not among the sources; the root an inode lies under, `NULL` for a `NULL` inode. -/
def redirfs_get_root_inode (s : avflt_state) (ino : Option Nat) : Option Nat :=
  ino.bind s.rfs_root

/-- Modelled from the spec: `avflt_get_root_data_root` of the data service, which
is not among the sources; the address and value of a root's data. -/
def avflt_get_root_data_root (s : avflt_state) (root : Nat) :
    Option (Nat × avflt_root_data) :=
  (s.root_data root).map (fun d => (root, d))

/-- Modelled from the spec: `avflt_get_root_data_inode` of the data service, which
is not among the sources; the data of the root an inode lies under. -/
def avflt_get_root_data_inode (s : avflt_state) (ino : Option Nat) :
    Option (Nat × avflt_root_data) :=
  (redirfs_get_root_inode s ino).bind (avflt_get_root_data_root s)

/-- Modelled from the spec: `avflt_get_inode_data_inode` of the data service, which
is not among the sources; the cache entry attached to an inode, if any. -/
def avflt_get_inode_data_inode (s : avflt_state) (ino : Option Nat) :
    Option (Nat × avflt_inode_data) :=
  ino.bind (fun i => (s.inode_data i).map (fun d => (i, d)))

/-- Modelled from the spec: `avflt_attach_inode_data` of the data service, which is
not among the sources; "attach an `InodeData`": the inode's entry, created from
`E.attach` when the inode has none. -/
def avflt_attach_inode_data (s : avflt_state) (E : environment) (ino : Option Nat) :
    Option (Nat × avflt_inode_data) :=
  ino.bind (fun i =>
    match s.inode_data i with
    | some d => some (i, d)
    | none => E.attach.map (fun d => (i, d)))

/-- Writes one inode's cache entry back. -/
def set_inode_data (s : avflt_state) (i : Nat) (data : avflt_inode_data) : avflt_state :=
  { s with inode_data := Function.update s.inode_data i (some data) }

/-- Modelled from the spec: `avflt_proc_allow` of the agent registry, which is not
among the sources; whether a process group is on the agents' allow list. -/
def avflt_proc_allow (s : avflt_state) (tgid : Int) : Bool := s.proc_allow tgid

/-! ## Hook dispatcher (`avflt_rfs.c`): cache probe -/

/-- Embedding of `avflt_use_cache` (`avflt_rfs.c`, lines 43-67). -/
def avflt_use_cache (s : avflt_state) (ino : Option Nat) : Int :=
  if s.avflt_cache_enabled = 0 then 0
  else
    match redirfs_get_root_inode s ino with
    | none => 0
    | some root =>
      match avflt_get_root_data_root s root with
      | none => 0
      | some (_, data) => if data.cache = 0 then 0 else 1

/-- The statement `data->inode_cache_ver++` on a C `int`. -/
def inode_cache_ver_inc (data : avflt_inode_data) : avflt_inode_data :=
  { data with inode_cache_ver := wrap32 (data.inode_cache_ver + 1) }

/-- The writecount rule of `avflt_check_cache` (`avflt_rfs.c`, lines 84-94). -/
def avflt_check_cache_wc (K : avflt_h) (wc : Int) (f_mode : Nat) (type : Int)
    (data : avflt_inode_data) : avflt_inode_data :=
  if wc = 1 then
    if f_mode &&& FMODE_WRITE = 0 then inode_cache_ver_inc data
    else if type = K.AVFLT_EVENT_CLOSE then inode_cache_ver_inc data
    else data
  else if wc > 1 then inode_cache_ver_inc data
  else data

/-- Embedding of `avflt_check_cache` (`avflt_rfs.c`, lines 69-107): the value
returned and the state left behind. -/
def avflt_check_cache (K : avflt_h) (s : avflt_state) (file : file) (type : Int) :
    Int × avflt_state :=
  let ino := s.d_inode file.f_dentry
  if avflt_use_cache s ino = 0 then (0, s)
  else
    match avflt_get_inode_data_inode s ino with
    | none => (0, s)
    | some (i, data0) =>
      let wc := (s.inodes i).i_writecount
      let data := avflt_check_cache_wc K wc file.f_mode type data0
      let s1 := set_inode_data s i data
      if data.avflt_cache_ver ≠ s.avflt_cache_ver then (0, s1)
      else if data.cache_ver ≠ data.inode_cache_ver then (0, s1)
      else (data.state, s1)

/-! ## Event object (`avflt_check.c`) -/

/-- The object `kmem_cache_zalloc` returns: every field zero. -/
def zeroed_event : avflt_event :=
  { count := 0, done := 0, type := 0, id := 0, fd := 0, pid := 0, tgid := 0,
    ppid := 0, ruid := 0, path := none, file := none, mnt := none, dentry := none,
    flags := 0, cache := 0, root_data := none, root_cache_ver := 0, cache_ver := 0,
    result := 0, freed := false }

/-- Writes one event object back to the heap. -/
def set_event (s : avflt_state) (event : Nat) (e : avflt_event) : avflt_state :=
  { s with events := Function.update s.events event e }

/-- Embedding of `avflt_event_alloc` (`avflt_check.c`, lines 38-102): the address
of the new event and the state holding it, or `none` for `ERR_PTR(-ENOMEM)`. -/
def avflt_event_alloc (s : avflt_state) (E : environment) (file : Option file)
    (path : Option (List Nat)) (type : Int) : Option (Nat × avflt_state) :=
  match E.kmem_cache_zalloc with
  | none => none
  | some event =>
    let e0 : avflt_event :=
      { zeroed_event with
        count := 1, type := type, id := -1, fd := -1,
        pid := E.current.pid, tgid := E.current.tgid, ppid := E.current.ppid,
        ruid := E.current.uid, path := path, file := none }
    match file with
    | none =>
      some (event, set_event s event
        { e0 with mnt := none, dentry := none, flags := 0, cache := 0 })
    | some f =>
      let e1 : avflt_event :=
        { e0 with mnt := some f.f_vfsmnt, dentry := some f.f_dentry,
                  flags := f.f_flags, cache := 1 }
      let ino := s.d_inode f.f_dentry
      let root_data := avflt_get_root_data_inode s ino
      let inode_data := avflt_get_inode_data_inode s ino
      let e2 : avflt_event :=
        match root_data with
        | some (_, r) => { e1 with root_cache_ver := r.cache_ver }
        | none => e1
      let e3 : avflt_event := { e2 with root_data := root_data.map Prod.fst }
      let e4 : avflt_event :=
        match inode_data with
        | some (_, d) => { e3 with cache_ver := d.inode_cache_ver }
        | none => e3
      some (event, set_event s event e4)

/-- Embedding of `avflt_event_get` (`avflt_check.c`, lines 104-113) for an event
pointer that is neither `NULL` nor an error code; `none` when `BUG_ON(!count)`
fires. `event->count` is an `atomic_t`, a 32-bit `int`: `atomic_inc` wraps from
`INT_MAX` to `INT_MIN`. -/
def avflt_event_get (s : avflt_state) (event : Nat) : Option avflt_state :=
  let e := s.events event
  if e.count = 0 then none
  else some (set_event s event { e with count := wrap32 (e.count + 1) })

/-- Embedding of `avflt_event_put` (`avflt_check.c`, lines 115-134) for an event
pointer that is neither `NULL` nor an error code; `none` when `BUG_ON(!count)`
fires. `atomic_dec_and_test` lowers the 32-bit count by one, wrapping from
`INT_MIN` to `INT_MAX`, and tests the new value: when it is zero the object is
released (`kmem_cache_free`). -/
def avflt_event_put (s : avflt_state) (event : Nat) : Option avflt_state :=
  let e := s.events event
  if e.count = 0 then none
  else if wrap32 (e.count - 1) ≠ 0 then
    some (set_event s event { e with count := wrap32 (e.count - 1) })
  else
    some (set_event s event { e with count := wrap32 (e.count - 1), freed := true })

/-- The object `avflt_event_put` has given back to the allocator: its last
reference is gone and `kmem_cache_free` ran. A pointer to it is dangling. Its
count is zero, so `avflt_event_get` and `avflt_event_put` stop at their `BUG_ON`
when they are handed one. -/
def released (e : avflt_event) : Prop := e.freed = true ∧ e.count = 0

instance (e : avflt_event) : Decidable (released e) := by
  unfold released; exact inferInstance

/-- Embedding of `avflt_event_done` (`avflt_check.c`, lines 288-291): `complete`
raises the completion's counter. -/
def avflt_event_done (s : avflt_state) (event : Nat) : avflt_state :=
  let e := s.events event
  set_event s event { e with done := e.done + 1 }

/-! ## Request queue and admission gate (`avflt_check.c`) -/

/-- Embedding of `avflt_add_request` (`avflt_check.c`, lines 136-157). -/
def avflt_add_request (s : avflt_state) (event : Nat) (tail : Int) :
    Option (Int × avflt_state) :=
  if s.avflt_request_accept = 0 then some (1, s)
  else
    let list :=
      if tail ≠ 0 then s.avflt_request_list ++ [event]
      else event :: s.avflt_request_list
    (avflt_event_get { s with avflt_request_list := list } event).map
      (fun s1 => (0, s1))

/-- Embedding of `avflt_readd_request` (`avflt_check.c`, lines 159-163). -/
def avflt_readd_request (s : avflt_state) (event : Nat) : Option avflt_state :=
  match avflt_add_request s event 0 with
  | none => none
  | some (rv, s1) => if rv ≠ 0 then some (avflt_event_done s1 event) else some s1

/-- Embedding of `avflt_rem_request` (`avflt_check.c`, lines 165-175). The
function starts by reading `event->req_list`; on a released object that is a use
of freed memory, `none`. -/
def avflt_rem_request (s : avflt_state) (event : Nat) : Option avflt_state :=
  if released (s.events event) then none
  else if event ∉ s.avflt_request_list then some s
  else
    avflt_event_put
      { s with avflt_request_list := s.avflt_request_list.erase event } event

/-- Embedding of `avflt_get_request` (`avflt_check.c`, lines 177-196): the event
popped (`none` for `NULL`) and the state left behind. -/
def avflt_get_request (s : avflt_state) : Option Nat × avflt_state :=
  match s.avflt_request_list with
  | [] => (none, s)
  | event :: rest =>
    let ids := wrap32 (s.avflt_event_ids + 1)
    let s1 := { s with avflt_request_list := rest, avflt_event_ids := ids }
    (some event, set_event s1 event { s1.events event with id := ids })

/-- Embedding of `avflt_request_empty` (`avflt_check.c`, lines 417-431). -/
def avflt_request_empty (s : avflt_state) : Int :=
  if s.avflt_request_list = [] then 1 else 0

/-- Embedding of `avflt_start_accept` (`avflt_check.c`, lines 433-438). -/
def avflt_start_accept (s : avflt_state) : avflt_state :=
  { s with avflt_request_accept := 1 }

/-- Embedding of `avflt_is_stopped` (`avflt_check.c`, lines 448-457). -/
def avflt_is_stopped (s : avflt_state) : Int :=
  if s.avflt_request_accept = 0 then 1 else 0

/-- Embedding of `avflt_rem_requests` (`avflt_check.c`, lines 459-484): the first
loop moves every queued event to a local list and completes it, the second loop
drops the queue's reference of each. -/
def avflt_rem_requests (s : avflt_state) : Option avflt_state :=
  if s.avflt_request_accept = 1 then some s
  else
    let list := s.avflt_request_list
    let s1 := list.foldl avflt_event_done { s with avflt_request_list := [] }
    list.foldlM avflt_event_put s1

/-! ## Submitting a request and waiting for its reply (`avflt_check.c`) -/

/-- The kernel's `wait_for_completion_interruptible_timeout` on `event->wait`: the
caller sleeps while the other threads run; the value returned is `E.wait`, and a
wait that ends by completion (positive value) takes the completion. -/
def wait_for_completion_interruptible_timeout (s : avflt_state) (E : environment)
    (event : Nat) : Int × avflt_state :=
  let s1 := E.others s
  if E.wait > 0 then
    let e := s1.events event
    (E.wait, set_event s1 event { e with done := e.done - 1 })
  else (E.wait, s1)

/-- Embedding of `avflt_wait_for_reply` (`avflt_check.c`, lines 198-222). The
timeout read from `avflt_reply_timeout` only sets how long the wait may last; the
outcome of the wait is `E.wait`. -/
def avflt_wait_for_reply (s : avflt_state) (E : environment) (event : Nat) :
    Int × avflt_state :=
  let (jiffies, s1) := wait_for_completion_interruptible_timeout s E event
  if jiffies < 0 then (wrap32 jiffies, s1)
  else if jiffies = 0 then (-ETIMEDOUT, { s1 with avflt_timed_out := 1 })
  else (0, s1)

/-- Embedding of `avflt_update_cache` (`avflt_check.c`, lines 224-258); `none` when
`event->dentry` is `NULL` where the code dereferences it. -/
def avflt_update_cache (s : avflt_state) (E : environment) (event : Nat) :
    Option avflt_state :=
  let e := s.events event
  if e.cache = 0 then some s
  else if s.avflt_cache_enabled = 0 then some s
  else
    match e.dentry with
    | none => none
    | some dentry =>
      let ino := s.d_inode dentry
      match avflt_get_root_data_inode s ino with
      | none => some s
      | some (_, root_data) =>
        if root_data.cache_enabled = 0 then some s
        else
          match avflt_attach_inode_data s E ino with
          | none => some s
          | some (i, inode_data) =>
            let installed : avflt_inode_data :=
              { inode_data with
                root_data := e.root_data,
                root_cache_ver := e.root_cache_ver,
                cache_ver := e.cache_ver,
                state := e.result }
            some (set_inode_data s i installed)

/-- The `exit:` label of `avflt_process_request` (`avflt_check.c`, lines 282-285). -/
def avflt_process_request_exit (s : avflt_state) (event : Nat) (rv : Int) :
    Option (Int × avflt_state) :=
  match avflt_rem_request s event with
  | none => none
  | some s1 => (avflt_event_put s1 event).map (fun s2 => (rv, s2))

/-- Embedding of `avflt_process_request` (`avflt_check.c`, lines 260-286). -/
def avflt_process_request (K : avflt_h) (s : avflt_state) (E : environment)
    (file : Option file) (path : Option (List Nat)) (type : Int) :
    Option (Int × avflt_state) :=
  match avflt_event_alloc s E file path type with
  | none => some (-ENOMEM, s)
  | some (event, s0) =>
    match avflt_add_request s0 event 1 with
    | none => none
    | some (notaccepted, s1) =>
      if notaccepted ≠ 0 then avflt_process_request_exit s1 event 0
      else
        let (rv, s2) := avflt_wait_for_reply s1 E event
        if rv ≠ 0 then avflt_process_request_exit s2 event rv
        else
          let s3 :=
            if (s2.events event).type = K.AVFLT_EVENT_OPEN ∨
               (s2.events event).type = K.AVFLT_EVENT_CLOSE then
              avflt_update_cache s2 E event
            else some s2
          match s3 with
          | none => none
          | some s3 => avflt_process_request_exit s3 event (s3.events event).result

/-! ## Hook dispatcher (`avflt_rfs.c`): the hook itself -/

/-- Embedding of `avflt_should_check` (`avflt_rfs.c`, lines 26-41). -/
def avflt_should_check (s : avflt_state) (E : environment) (file : file) : Int :=
  if avflt_is_stopped s ≠ 0 then 0
  else if avflt_proc_allow s E.current.tgid then 0
  else
    match s.d_inode file.f_dentry with
    | none => 0
    | some i => if (s.inodes i).i_size = 0 then 0 else 1

/-- Embedding of `avflt_check_file` (`avflt_rfs.c`, lines 124-141): the decision,
the hook's arguments and the state left behind. The call site passes `(file, type)`
to `avflt_process_request`, whose definition takes `(file, path, type)`; the path
argument is the parameter `path`. -/
def avflt_check_file (K : avflt_h) (s : avflt_state) (E : environment) (file : file)
    (path : Option (List Nat)) (type : Int) (args : redirfs_args) :
    Option (redirfs_rv × redirfs_args × avflt_state) :=
  if avflt_should_check s E file = 0 then
    some (redirfs_rv.REDIRFS_CONTINUE, args, s)
  else
    let (rv, s1) := avflt_check_cache K s file type
    if rv ≠ 0 then
      let (d, a) := avflt_eval_res K rv args
      some (d, a, s1)
    else
      match avflt_process_request K s1 E (some file) path type with
      | none => none
      | some (rv, s2) =>
        if rv ≠ 0 then
          let (d, a) := avflt_eval_res K rv args
          some (d, a, s2)
        else some (redirfs_rv.REDIRFS_CONTINUE, args, s2)

/-- Embedding of `avflt_pre_open` (`avflt_rfs.c`, lines 143-149). -/
def avflt_pre_open (K : avflt_h) (s : avflt_state) (E : environment) (file : file)
    (path : Option (List Nat)) (args : redirfs_args) :
    Option (redirfs_rv × redirfs_args × avflt_state) :=
  avflt_check_file K s E file path K.AVFLT_EVENT_OPEN args

/-! ## Agent codec (`avflt_check.c`): the request line -/

/-- The bytes of a string literal of the source. -/
def cstr (s : String) : List Nat := s.toList.map Char.toNat

/-- The decimal digits of a number, most significant first, as the kernel's
`number()` emits them: the last digit is `n % 10`, the digits before it are those
of `n / 10`. The first argument bounds the number of digits. -/
def put_dec : Nat → Nat → List Nat
  | 0, _ => []
  | fuel + 1, n =>
    if n < 10 then [48 + n] else put_dec fuel (n / 10) ++ [48 + n % 10]

/-- An unsigned number in decimal. -/
def fmt_u (n : Nat) : List Nat := put_dec (n + 1) n

/-- The conversion `%d` of the kernel's `vsnprintf`: signed decimal. -/
def fmt_d (v : Int) : List Nat :=
  if v < 0 then 45 :: fmt_u (-v).toNat else fmt_u v.toNat

/-- The expansion of the format string of `avflt_copy_cmd`,
`"id:%d,type:%d,fd:%d,pid:%d,tgid:%d,ppid:%d,ruid:%d"`, for an event. -/
def request_line_base (e : avflt_event) : List Nat :=
  cstr "id:" ++ fmt_d e.id ++ cstr ",type:" ++ fmt_d e.type ++ cstr ",fd:" ++ fmt_d e.fd ++
  cstr ",pid:" ++ fmt_d e.pid ++ cstr ",tgid:" ++ fmt_d e.tgid ++
  cstr ",ppid:" ++ fmt_d e.ppid ++ cstr ",ruid:" ++ fmt_d e.ruid

/-- The kernel's `snprintf(buf, size, ...)` for `size > 0`, given the full
expansion: the bytes left in the array (truncated to `size - 1`, then `NUL`) and
the value returned (the length of the full expansion). -/
def snprintf (size : Nat) (out : List Nat) : List Nat × Int :=
  (out.take (size - 1) ++ [0], (out.length : Int))

/-- The C string stored in a byte sequence: the bytes before the first `NUL`. -/
def c_string (p : List Nat) : List Nat := p.takeWhile (fun b => b ≠ 0)

/-- The C function `strlen`. -/
def strlen (p : List Nat) : Nat := (c_string p).length

/-- The user buffer `buf` of an agent: `mem` is the byte at each offset from `buf`,
and the first `limit` bytes are writable user memory. -/
structure user_mem where
  mem : Nat → Nat
  limit : Nat

/-- Stores a byte sequence at an offset. -/
def user_mem.write (u : user_mem) (dst : Nat) (bytes : List Nat) : user_mem :=
  { u with mem := fun a =>
      if dst ≤ a ∧ a < dst + bytes.length then bytes.getD (a - dst) 0 else u.mem a }

/-- The bytes at offsets `off .. off + n - 1`. -/
def user_mem.read (u : user_mem) (off n : Nat) : List Nat :=
  (List.range n).map (fun i => u.mem (off + i))

/-- The kernel's `copy_to_user(buf + dst, src, n)`: copies as many of the `n` bytes
as lie in writable user memory and returns the number of bytes not copied. -/
def copy_to_user (u : user_mem) (dst : Nat) (src : List Nat) (n : Nat) : Nat × user_mem :=
  let k := min n (u.limit - dst)
  (n - k, u.write dst (src.take k))

/-- The array `path_delim_str` of `avflt_copy_cmd`, without its `NUL`. -/
def path_delim_str : List Nat := cstr ",path:"

/-- The constant `path_delim_len = sizeof(path_delim_str) - 1` of `avflt_copy_cmd`. -/
def path_delim_len : Nat := (path_delim_str ++ [0]).length - 1

/-- Embedding of `avflt_copy_cmd` (`avflt_check.c`, lines 347-401): the value
returned and the user buffer left behind. `size_t` values are `Nat`: the lengths
added are lengths of strings held in memory, far below the modulus of `size_t`. -/
def avflt_copy_cmd (u : user_mem) (size : Nat) (e : avflt_event) : Int × user_mem :=
  let (base, base_len) := snprintf 256 (request_line_base e)
  if base_len < 0 then (base_len, u)
  else if base_len.toNat ≥ size then (-EINVAL, u)
  else
    let path_len := match e.path with
      | some p => strlen p
      | none => 0
    let total_len := match e.path with
      | some _ => base_len.toNat + path_delim_len + path_len
      | none => base_len.toNat
    if total_len ≥ size then (-EINVAL, u)
    else
      let total_size := total_len + 1
      match e.path with
      | some p =>
        let (r1, u1) := copy_to_user u 0 base base_len.toNat
        if r1 ≠ 0 then (-EFAULT, u1)
        else
          let (r2, u2) := copy_to_user u1 base_len.toNat path_delim_str path_delim_len
          if r2 ≠ 0 then (-EFAULT, u2)
          else
            let (r3, u3) :=
              copy_to_user u2 (base_len.toNat + path_delim_len) (p ++ [0]) (path_len + 1)
            if r3 ≠ 0 then (-EFAULT, u3)
            else ((total_size : Int), u3)
      | none =>
        let (r, u1) := copy_to_user u 0 base total_size
        if r ≠ 0 then (-EFAULT, u1)
        else ((total_size : Int), u1)

/-- The request line the specification documents for an event:
`id:<id>,type:<type>,fd:<fd>,pid:<pid>,tgid:<tgid>,ppid:<ppid>,ruid:<ruid>`, each
field in signed decimal, followed by `,path:<path>` when the event has a path. -/
def request_line (e : avflt_event) : List Nat :=
  cstr "id:" ++ fmt_d e.id ++ cstr ",type:" ++ fmt_d e.type ++ cstr ",fd:" ++ fmt_d e.fd ++
  cstr ",pid:" ++ fmt_d e.pid ++ cstr ",tgid:" ++ fmt_d e.tgid ++
  cstr ",ppid:" ++ fmt_d e.ppid ++ cstr ",ruid:" ++ fmt_d e.ruid ++
  (match e.path with
   | some p => cstr ",path:" ++ c_string p
   | none => [])

/-- Every field `avflt_copy_cmd` prints with `%d` holds a value of a C `int`. -/
def event_ints (e : avflt_event) : Prop :=
  is_int e.id ∧ is_int e.type ∧ is_int e.fd ∧ is_int e.pid ∧ is_int e.tgid ∧
  is_int e.ppid ∧ is_int e.ruid

instance (e : avflt_event) : Decidable (event_ints e) := by
  unfold event_ints; exact inferInstance

/-- The event of the specification's first scenario once popped and encoded:
`id 1`, open, `fd 3`, `pid = tgid = 100`, `ppid 1`, `ruid 0`, path `/a`. -/
def event_a : avflt_event :=
  { zeroed_event with
    count := 2, type := 0, id := 1, fd := 3, pid := 100, tgid := 100, ppid := 1,
    ruid := 0, path := some (cstr "/a") }

/-- An agent buffer of 64 writable bytes, each holding `255`. -/
def ubuf64 : user_mem := { mem := fun _ => 255, limit := 64 }

/-! ## Agent codec (`avflt_check.c`): the file handle -/

/-- Linux `O_RDONLY`. -/
def O_RDONLY : Int := 0

/-- Linux `O_LARGEFILE` (the generic value, octal `0100000`). -/
def O_LARGEFILE : Int := 32768

/-- The descriptor table of the calling agent and the file objects.
* `reserved`: the descriptor slots `get_unused_fd` handed out that were neither
  returned with `put_unused_fd` nor installed;
* `fd`: the file installed at each descriptor by `fd_install`;
* `f_count`, `f_flags`: the reference count and the flags of each file object. -/
structure files_struct where
  reserved : List Int
  fd : Int → Option Nat
  f_count : Nat → Int
  f_flags : Nat → Int

/-- What the kernel answers during one call of `avflt_get_file`: the value of
`get_unused_fd()` (a free slot, or a negative error) and the value of
`dentry_open(...)` (a new file object, or the error carried by `ERR_PTR`). -/
structure file_environment where
  get_unused_fd : Int
  dentry_open : Except Int Nat

/-- The kernel's `put_unused_fd`: the slot goes back to the unused pool. -/
def put_unused_fd (t : files_struct) (fd : Int) : files_struct :=
  { t with reserved := t.reserved.erase fd }

/-- The kernel's `fput`: one reference on the file object is dropped. -/
def fput (t : files_struct) (file : Nat) : files_struct :=
  { t with f_count := Function.update t.f_count file (t.f_count file - 1) }

/-- The kernel's `fd_install`: the file is placed in the table at a reserved slot. -/
def fd_install (t : files_struct) (fd : Int) (file : Option Nat) : files_struct :=
  { t with reserved := t.reserved.erase fd, fd := Function.update t.fd fd file }

/-- Embedding of `avflt_get_file` (`avflt_check.c`, lines 293-328): the value
returned, the state and the descriptor table left behind. -/
def avflt_get_file (s : avflt_state) (t : files_struct) (F : file_environment)
    (event : Nat) : Int × avflt_state × files_struct :=
  let e := s.events event
  match e.dentry with
  | none => (0, set_event s event { e with file := none, fd := -1 }, t)
  | some _ =>
    let fd := F.get_unused_fd
    if fd < 0 then (fd, s, t)
    else
      let t1 : files_struct := { t with reserved := fd :: t.reserved }
      let flags := Int.lor O_RDONLY (Int.land e.flags O_LARGEFILE)
      match F.dentry_open with
      | Except.error err => (err, s, put_unused_fd t1 fd)
      | Except.ok file =>
        let t2 : files_struct :=
          { t1 with
            f_count := Function.update t1.f_count file 1,
            f_flags := Function.update t1.f_flags file flags }
        (0, set_event s event { e with file := some file, fd := fd }, t2)

/-- Embedding of `avflt_put_file` (`avflt_check.c`, lines 330-340). -/
def avflt_put_file (s : avflt_state) (t : files_struct) (event : Nat) :
    avflt_state × files_struct :=
  let e := s.events event
  let t1 := if e.fd > 0 then put_unused_fd t e.fd else t
  let t2 :=
    match e.file with
    | some file => fput t1 file
    | none => t1
  (set_event s event { e with fd := -1, file := none }, t2)

/-- Embedding of `avflt_install_fd` (`avflt_check.c`, lines 342-345). -/
def avflt_install_fd (s : avflt_state) (t : files_struct) (event : Nat) : files_struct :=
  fd_install t (s.events event).fd (s.events event).file

/-! ## Agent codec (`avflt_check.c`): the reply line -/

/-- The kernel's `isspace`: space, the controls `\t \n \v \f \r`, and byte 160. -/
def isspace (c : Nat) : Bool := c = 32 || (9 ≤ c && c ≤ 13) || c = 160

/-- The kernel's `isdigit`. -/
def isdigit (c : Nat) : Bool := 48 ≤ c && c ≤ 57

/-- The kernel's `skip_spaces`. -/
def skip_spaces : List Nat → List Nat
  | [] => []
  | c :: cs => if isspace c then skip_spaces cs else c :: cs

/-- The digit loop of the kernel's `simple_strtoul` in base 10: the value read
after the digits already accumulated, and the rest of the input. -/
def simple_strtoul : List Nat → Nat → Nat × List Nat
  | [], acc => (acc, [])
  | c :: cs, acc =>
    if isdigit c then simple_strtoul cs (acc * 10 + (c - 48)) else (acc, c :: cs)

/-- The kernel's `simple_strtol` in base 10: an optional `-`, then digits. -/
def simple_strtol (str : List Nat) : Int × List Nat :=
  match str with
  | 45 :: cs => (-((simple_strtoul cs 0).1 : Int), (simple_strtoul cs 0).2)
  | _ => (((simple_strtoul str 0).1 : Int), (simple_strtoul str 0).2)

/-- How `vsscanf` handles the characters of the format that are not a conversion:
each must equal the next input character; `none` when one does not. -/
def scan_literal : List Nat → List Nat → Option (List Nat)
  | [], str => some str
  | _ :: _, [] => none
  | f :: fs, c :: cs => if f = c then scan_literal fs cs else none

/-- How `vsscanf` handles the conversion `%d` into an `int`: white space is
skipped, a digit must follow (after an optional `-`), the number is read by
`simple_strtol` and narrowed to `int`; `none` when no digit follows. The value
`simple_strtol` returns is an `unsigned long` reduced modulo a multiple of `2^32`,
so narrowing the exact value gives the same `int`. -/
def scan_d (str : List Nat) : Option (Int × List Nat) :=
  let str := skip_spaces str
  let digit : Option Nat :=
    match str with
    | [] => none
    | [c] => some c
    | c :: c1 :: _ => if c = 45 then some c1 else some c
  match digit with
  | none => none
  | some d =>
    if isdigit d then some (wrap32 (simple_strtol str).1, (simple_strtol str).2)
    else none

/-- The call `sscanf(buf, "id:%d,res:%d,cache:%d", &id, &result, &cache)` of
`avflt_get_reply` on the C string at `buf`: the number of conversions made and the
values of `id`, `result` and `cache` afterwards. `cache` starts as `cache0`; `id`
and `result` are uninitialised in the source and read only after at least two
conversions, so their starting value `0` is never observed. -/
def sscanf_reply (buf : List Nat) (cache0 : Int) : Int × Int × Int × Int :=
  match scan_literal (cstr "id:") (c_string buf) with
  | none => (0, 0, 0, cache0)
  | some s1 =>
    match scan_d s1 with
    | none => (0, 0, 0, cache0)
    | some (id, s2) =>
      match scan_literal (cstr ",res:") s2 with
      | none => (1, id, 0, cache0)
      | some s3 =>
        match scan_d s3 with
        | none => (1, id, 0, cache0)
        | some (result, s4) =>
          match scan_literal (cstr ",cache:") s4 with
          | none => (2, id, result, cache0)
          | some s5 =>
            match scan_d s5 with
            | none => (2, id, result, cache0)
            | some (cache, _) => (3, id, result, cache)

/-- Modelled from the spec: `avflt_proc_find` of the agent registry, which is not
among the sources; the backlog of the agent registered for a process group. -/
def avflt_proc_find (s : avflt_state) (tgid : Int) : Option (List Nat) := s.procs tgid

/-- Modelled from the spec: `avflt_proc_get_event` of the agent registry, which is
not among the sources; "remove the event with matching `id` from that agent's
backlog": the event found and the state without it in the backlog. -/
def avflt_proc_get_event (s : avflt_state) (tgid : Int) (proc : List Nat) (id : Int) :
    Option (Nat × avflt_state) :=
  match proc.find? (fun event => (s.events event).id = id) with
  | none => none
  | some event =>
    some (event, { s with procs := Function.update s.procs tgid (some (proc.erase event)) })

/-- Embedding of `avflt_get_reply` (`avflt_check.c`, lines 486-526): the event the
reply answers and the state left behind, or the error code of `ERR_PTR`. `buf` is
the user memory at the pointer passed in, up to the end of what is readable;
`copy_from_user` faults when `size` reaches beyond it. -/
def avflt_get_reply (s : avflt_state) (E : environment) (buf : List Nat) (size : Nat) :
    Except Int (Nat × avflt_state) :=
  if size > 256 then Except.error (-EINVAL)
  else if size > buf.length then Except.error (-EFAULT)
  else
    match sscanf_reply buf (-1) with
    | (rv, id, result, cache) =>
      if rv ≠ 2 ∧ rv ≠ 3 then Except.error (-EINVAL)
      else
        match avflt_proc_find s E.current.tgid with
        | none => Except.error (-ENOENT)
        | some proc =>
          match avflt_proc_get_event s E.current.tgid proc id with
          | none => Except.error (-ENOENT)
          | some (event, s1) =>
            let e1 : avflt_event := { s1.events event with result := result }
            let e2 : avflt_event := if cache ≠ -1 then { e1 with cache := cache } else e1
            Except.ok (event, set_event s1 event e2)

/-- The reply line the specification documents: `id:<id>,res:<res>`, followed by
`,cache:<cache>` when the agent gives the field; each field in signed decimal. -/
def reply_line (id res : Int) (cache : Option Int) : List Nat :=
  cstr "id:" ++ fmt_d id ++ cstr ",res:" ++ fmt_d res ++
  (match cache with
   | some c => cstr ",cache:" ++ fmt_d c
   | none => [])

/-- Embedding of `avflt_invalidate_cache_root` (`avflt_check.c`, lines 528-541):
the root's `cache_ver` is raised by one. -/
def avflt_invalidate_cache_root (s : avflt_state) (root : Option Nat) : avflt_state :=
  match root with
  | none => s
  | some r =>
    match avflt_get_root_data_root s r with
    | none => s
    | some (a, data) =>
      let data1 : avflt_root_data := { data with cache_ver := wrap32 (data.cache_ver + 1) }
      { s with root_data := Function.update s.root_data a (some data1) }

/-! ## Concrete objects used to run the code -/

/-- Example values for the constants of `avflt.h`: infected `1`, open `0`, close `1`. -/
def K0 : avflt_h := { AVFLT_FILE_INFECTED := 1, AVFLT_EVENT_OPEN := 0, AVFLT_EVENT_CLOSE := 1 }

/-- A broker with the gate open, caching enabled, one root (`0`) that caches, and
a ten-byte file: dentry `0` with inode `0`, not open for writing anywhere. No
inode has a cache entry and no event is queued. -/
def st0 : avflt_state :=
  { avflt_request_list := [], avflt_request_accept := 1, avflt_cache_ver := 0,
    avflt_event_ids := 0, avflt_cache_enabled := 1, avflt_reply_timeout := 50,
    avflt_timed_out := 0,
    events := fun _ => zeroed_event,
    d_inode := fun d => if d = 0 then some 0 else none,
    inodes := fun _ => { i_size := 10, i_writecount := 0 },
    rfs_root := fun _ => some 0,
    root_data := fun r =>
      if r = 0 then some { cache_enabled := 1, cache := 1, cache_ver := 4 } else none,
    inode_data := fun _ => none,
    proc_allow := fun _ => false,
    procs := fun _ => none }

/-- A read-only open file on dentry `0`. -/
def file0 : file := { f_vfsmnt := 0, f_dentry := 0, f_flags := 0, f_mode := 1 }

/-- The task with `pid = tgid = 100`, `ppid = 1`, `uid = 0`. -/
def task0 : task := { pid := 100, tgid := 100, ppid := 1, uid := 0 }

/-- The broker `st0` in which inode `0` has a cache entry holding `state`, taken at
the current global, root (`4`) and inode (`0`) versions. -/
def st_cached (state : Int) : avflt_state :=
  { st0 with
    inode_data := fun i =>
      if i = 0 then
        some { root_data := some 0, avflt_cache_ver := 0, root_cache_ver := 4,
               inode_cache_ver := 0, cache_ver := 0, state := state }
      else none }

/-- An agent that pops the head of the request queue, answers it with `result`
(the assignment `event->result = result` of `avflt_get_reply`), completes it and
drops the reference it took over from the queue. -/
def agent_answers (result : Int) (s : avflt_state) : avflt_state :=
  match avflt_get_request s with
  | (none, s1) => s1
  | (some event, s1) =>
    let s2 := set_event s1 event { s1.events event with result := result }
    let s3 := avflt_event_done s2 event
    (avflt_event_put s3 event).getD s3

/-- The surroundings of an open by `task0` whose event is allocated at `addr`,
answered by an agent with `result` while the submitter waits. -/
def env_answered (addr : Nat) (result : Int) : environment :=
  { current := task0, kmem_cache_zalloc := some addr, others := agent_answers result,
    wait := 1,
    attach := some { root_data := none, avflt_cache_ver := 0, root_cache_ver := 0,
                     inode_cache_ver := 0, cache_ver := 0, state := 0 } }

/-- The surroundings of an open by `task0` whose event is allocated at `addr` and
that no agent answers before the wait times out. -/
def env_silent (addr : Nat) : environment :=
  { current := task0, kmem_cache_zalloc := some addr, others := fun s => s,
    wait := 0, attach := none }

/-- The broker `st0` in which every address holds a live event with one holder. -/
def st_live : avflt_state :=
  { st0 with events := fun _ => { zeroed_event with count := 1 } }

/-- The broker `st_live` with the admission gate closed. -/
def st_closed : avflt_state := { st_live with avflt_request_accept := 0 }

/-- The broker `st_closed` with the live events `3` and `5` still queued. -/
def st_stranded : avflt_state := { st_closed with avflt_request_list := [3, 5] }

/-- The broker `st0` in which the agent of process group `100` holds event `7` in
its backlog: popped with `id 1`, its `cache` flag set to `cache`. -/
def st_backlog (cache : Int) : avflt_state :=
  { st0 with
    events := fun a =>
      if a = 7 then { zeroed_event with count := 2, id := 1, fd := -1, cache := cache }
      else zeroed_event,
    procs := fun t => if t = 100 then some [7] else none }

/-- The surroundings of a call made by the agent `task0`. -/
def env_agent : environment :=
  { current := task0, kmem_cache_zalloc := none, others := fun s => s, wait := 0,
    attach := none }

/-- The broker `st0` in which every file is empty (`i_size = 0`). -/
def st_empty_file : avflt_state :=
  { st0 with inodes := fun _ => { i_size := 0, i_writecount := 0 } }

/-- The surroundings of an open by `task0` whose event is allocated at `addr`: while
the submitter waits an agent pops the request from the queue but does not answer
before the wait times out. -/
def env_popped (addr : Nat) : environment :=
  { current := task0, kmem_cache_zalloc := some addr,
    others := fun s => (avflt_get_request s).2,
    wait := 0, attach := none }

/-- The broker `st0` in which the open event `7` (dentry `0`, cache-eligible,
snapshots of root version `4` and inode version `0`) has been answered with the
verdict `2`. -/
def st_replied : avflt_state :=
  { st0 with
    events := fun a =>
      if a = 7 then
        { zeroed_event with
          count := 1, type := 0, id := 1, fd := -1, dentry := some 0, mnt := some 0,
          cache := 1, root_data := some 0, root_cache_ver := 4, cache_ver := 0,
          result := 2 }
      else zeroed_event }

/-- A descriptor table with nothing reserved, nothing installed and no file open. -/
def files0 : files_struct :=
  { reserved := [], fd := fun _ => none, f_count := fun _ => 0, f_flags := fun _ => 0 }

/-- The kernel reserves descriptor `fd` and opens the file object `5`. -/
def fenv (fd : Int) : file_environment :=
  { get_unused_fd := fd, dentry_open := Except.ok 5 }

/-- The broker `st_live` with the live events `3` and `5` queued, gate open. -/
def st_queued : avflt_state := { st_live with avflt_request_list := [3, 5] }

/-- The broker `st0` with the events `3` and `5` queued, gate open, in which every
address holds a live event with two holders (for a queued event: the queue and the
submitter that waits for it). -/
def st_held : avflt_state :=
  { st0 with
    avflt_request_list := [3, 5],
    events := fun _ => { zeroed_event with count := 2 } }

/-- The broker `st0` with the global cache switch set to `enabled`, two writers on
every inode, and a cache entry on inode `0` whose `inode_cache_ver` is `ver`. -/
def st_writers (enabled ver : Int) : avflt_state :=
  { st0 with
    avflt_cache_enabled := enabled,
    inodes := fun _ => { i_size := 10, i_writecount := 2 },
    inode_data := fun i =>
      if i = 0 then
        some { root_data := some 0, avflt_cache_ver := 0, root_cache_ver := 4,
               inode_cache_ver := ver, cache_ver := 0, state := 1 }
      else none }

/-! ## Effects on one event object -/

/-- The event after one `complete(&event->wait)`. -/
def event_completed (e : avflt_event) : avflt_event := { e with done := e.done + 1 }

/-- The live event after one `avflt_event_put`: one reference less in 32-bit
arithmetic, and released when the new count is zero. -/
def event_released (e : avflt_event) : avflt_event :=
  { e with count := wrap32 (e.count - 1),
           freed := e.freed || decide (wrap32 (e.count - 1) = 0) }

/-! ## Drivers: sequences of queue operations -/

/-- Submits the events of a list in order, each with `avflt_add_request(e, tail)`;
`none` as soon as a submit is not accepted or stops the kernel. -/
def submit_all (s : avflt_state) (tail : Int) : List Nat → Option avflt_state
  | [] => some s
  | e :: es =>
    match avflt_add_request s e tail with
    | some (rv, s1) => if rv = 0 then submit_all s1 tail es else none
    | none => none

/-- Calls `avflt_get_request` `n` times in a row: the pointers returned, in order,
and the state left behind. -/
def get_requests (s : avflt_state) : Nat → List (Option Nat) × avflt_state
  | 0 => ([], s)
  | n + 1 =>
    let (r, s1) := avflt_get_request s
    let (rs, s2) := get_requests s1 n
    (r :: rs, s2)

/-- One operation of the broker on the request queue and its events: a submit at
the tail, a re-add at the head, a pop by an agent, or a holder dropping its
reference to an event with `avflt_event_put`. -/
inductive queue_op where
  | submit (event : Nat)
  | readd (event : Nat)
  | pop
  | put (event : Nat)
  deriving DecidableEq, Repr

/-- Runs a sequence of queue operations: the ids `avflt_get_request` assigned, in
the order of the pops, and the state left behind. A `BUG_ON` stops the kernel and
ends the run. -/
def run_ops : avflt_state → List queue_op → List Int × avflt_state
  | s, [] => ([], s)
  | s, queue_op.submit e :: ops =>
    match avflt_add_request s e 1 with
    | none => ([], s)
    | some (_, s1) => run_ops s1 ops
  | s, queue_op.readd e :: ops =>
    match avflt_readd_request s e with
    | none => ([], s)
    | some s1 => run_ops s1 ops
  | s, queue_op.pop :: ops =>
    match (avflt_get_request s).1 with
    | none => run_ops (avflt_get_request s).2 ops
    | some event =>
      (((avflt_get_request s).2.events event).id :: (run_ops (avflt_get_request s).2 ops).1,
        (run_ops (avflt_get_request s).2 ops).2)
  | s, queue_op.put e :: ops =>
    match avflt_event_put s e with
    | none => ([], s)
    | some s1 => run_ops s1 ops

/-- The operations of `n` rounds. In one round the holder of an event submits it,
an agent pops it, and the agent drops the reference it took over from the queue:
the refcount is after the round what it was before. -/
def rounds (event : Nat) : Nat → List queue_op
  | 0 => []
  | n + 1 => queue_op.submit event :: queue_op.pop :: queue_op.put event :: rounds event n

/-- The broker `st_live` with event `3` queued and the id counter at `INT_MAX`. -/
def st_ids_max : avflt_state :=
  { st_live with avflt_request_list := [3], avflt_event_ids := 2147483647 }

/-! ## Theorems -/

/-! ### 32-bit arithmetic -/

theorem wrap32_of_is_int (v : Int) (h : is_int v) : wrap32 v = v := by
  unfold is_int at h
  unfold wrap32
  omega

theorem wrap32_zero : wrap32 0 = 0 := by decide

theorem wrap32_one : wrap32 1 = 1 := by decide

theorem wrap32_two : wrap32 2 = 2 := by decide

/-- C1: for every verdict `rv` and every return slot, `avflt_eval_res` returns STOP
and writes `rv` when `rv < 0`; returns STOP and writes `-EPERM` when
`rv = AVFLT_FILE_INFECTED`; and for every other non-negative `rv` returns CONTINUE
and leaves the slot as it was. `AVFLT_FILE_INFECTED` is any non-negative constant. -/
theorem avflt_eval_res_verdict (K : avflt_h) (hK : 0 ≤ K.AVFLT_FILE_INFECTED)
    (rv : Int) (args : redirfs_args) :
    (rv < 0 → avflt_eval_res K rv args = (redirfs_rv.REDIRFS_STOP, ⟨rv⟩)) ∧
    (rv = K.AVFLT_FILE_INFECTED →
      avflt_eval_res K rv args = (redirfs_rv.REDIRFS_STOP, ⟨-EPERM⟩)) ∧
    (0 ≤ rv → rv ≠ K.AVFLT_FILE_INFECTED →
      avflt_eval_res K rv args = (redirfs_rv.REDIRFS_CONTINUE, args)) := by
  refine ⟨fun h => ?_, fun h => ?_, fun h0 h1 => ?_⟩
  · simp [avflt_eval_res, h]
  · subst h
    have : ¬ K.AVFLT_FILE_INFECTED < 0 := by omega
    simp [avflt_eval_res, this]
  · have : ¬ rv < 0 := by omega
    simp [avflt_eval_res, this, h1]

/-- Witness for C1 with `AVFLT_FILE_INFECTED = 1`, slot `7`, verdict `1`. -/
theorem avflt_eval_res_verdict_witness :
    (0 : Int) ≤ (avflt_h.mk 1 0 2).AVFLT_FILE_INFECTED ∧
    avflt_eval_res (avflt_h.mk 1 0 2) 1 ⟨7⟩ = (redirfs_rv.REDIRFS_STOP, ⟨-1⟩) :=
  ⟨by decide,
   (avflt_eval_res_verdict (avflt_h.mk 1 0 2) (by decide) 1 ⟨7⟩).2.1 rfl⟩


/-! ### Event heap, allocation and submit -/

@[simp] theorem set_event_list (s : avflt_state) (a : Nat) (e : avflt_event) :
    (set_event s a e).avflt_request_list = s.avflt_request_list := rfl

@[simp] theorem set_event_accept (s : avflt_state) (a : Nat) (e : avflt_event) :
    (set_event s a e).avflt_request_accept = s.avflt_request_accept := rfl

@[simp] theorem set_event_same (s : avflt_state) (a : Nat) (e : avflt_event) :
    (set_event s a e).events a = e := by
  simp [set_event]

theorem set_event_other (s : avflt_state) (a b : Nat) (e : avflt_event) (h : b ≠ a) :
    (set_event s a e).events b = s.events b := by
  simp [set_event, Function.update, h]

/-- An accepted submit at the tail appends the event and touches no other event. -/
theorem avflt_add_request_tail (s : avflt_state) (e : Nat)
    (hacc : s.avflt_request_accept ≠ 0) (hcnt : (s.events e).count ≠ 0) :
    ∃ s1, avflt_add_request s e 1 = some (0, s1) ∧
      s1.avflt_request_list = s.avflt_request_list ++ [e] ∧
      s1.avflt_request_accept = s.avflt_request_accept ∧
      (s1.events e).count = wrap32 ((s.events e).count + 1) ∧
      ∀ b, b ≠ e → s1.events b = s.events b := by
  refine ⟨set_event { s with avflt_request_list := s.avflt_request_list ++ [e] } e
    { s.events e with count := wrap32 ((s.events e).count + 1) }, ?_, ?_, ?_, ?_, ?_⟩
  · simp [avflt_add_request, hacc, avflt_event_get, hcnt]
  · simp
  · simp
  · simp
  · intro b hb
    simp [set_event_other _ _ _ _ hb]

@[simp] theorem set_event_set_event (s : avflt_state) (a : Nat) (e1 e2 : avflt_event) :
    set_event (set_event s a e1) a e2 = set_event s a e2 := by
  simp [set_event]

/-- A successful allocation writes one fresh event with a single holder, no file
handle, `fd = -1`, `id = -1` and the result `0`, and changes nothing else. -/
theorem avflt_event_alloc_some (s : avflt_state) (E : environment) (file : Option file)
    (path : Option (List Nat)) (type : Int) (a : Nat)
    (hmem : E.kmem_cache_zalloc = some a) :
    ∃ e0, avflt_event_alloc s E file path type = some (a, set_event s a e0) ∧
      e0.count = 1 ∧ e0.freed = false ∧ e0.result = 0 ∧ e0.done = 0 ∧
      e0.fd = -1 ∧ e0.file = none ∧ e0.id = -1 ∧ e0.type = type ∧ e0.path = path := by
  unfold avflt_event_alloc
  rw [hmem]
  cases file with
  | none => exact ⟨_, rfl, rfl, rfl, rfl, rfl, rfl, rfl, rfl, rfl, rfl⟩
  | some f =>
    simp only []
    cases avflt_get_root_data_inode s (s.d_inode f.f_dentry) <;>
      cases avflt_get_inode_data_inode s (s.d_inode f.f_dentry) <;>
      exact ⟨_, rfl, rfl, rfl, rfl, rfl, rfl, rfl, rfl, rfl, rfl⟩

/-! ### Cache probe -/

/-- The writecount rule touches `inode_cache_ver` only. -/
theorem avflt_check_cache_wc_frame (K : avflt_h) (wc : Int) (f_mode : Nat) (type : Int)
    (data : avflt_inode_data) :
    (avflt_check_cache_wc K wc f_mode type data).state = data.state ∧
    (avflt_check_cache_wc K wc f_mode type data).cache_ver = data.cache_ver ∧
    (avflt_check_cache_wc K wc f_mode type data).avflt_cache_ver = data.avflt_cache_ver ∧
    (avflt_check_cache_wc K wc f_mode type data).root_cache_ver = data.root_cache_ver ∧
    (avflt_check_cache_wc K wc f_mode type data).root_data = data.root_data := by
  unfold avflt_check_cache_wc inode_cache_ver_inc
  split_ifs <;> simp

/-- The two comparisons the probe does make: when the entry's global snapshot
differs from `avflt_cache_ver`, or its `cache_ver` differs from `inode_cache_ver`
after the writecount rule, the probe returns a miss. -/
theorem avflt_check_cache_miss (K : avflt_h) (s : avflt_state) (file : file) (type : Int)
    (i : Nat) (data : avflt_inode_data)
    (hino : s.d_inode file.f_dentry = some i)
    (hdata : s.inode_data i = some data)
    (hdiff : data.avflt_cache_ver ≠ s.avflt_cache_ver ∨
      data.cache_ver ≠ (avflt_check_cache_wc K (s.inodes i).i_writecount file.f_mode
        type data).inode_cache_ver) :
    (avflt_check_cache K s file type).1 = 0 := by
  obtain ⟨-, h2, h3, -, -⟩ :=
    avflt_check_cache_wc_frame K (s.inodes i).i_writecount file.f_mode type data
  by_cases hu : avflt_use_cache s (some i) = 0
  · simp [avflt_check_cache, hino, hu]
  · rcases hdiff with h | h
    · simp [avflt_check_cache, hino, hu, avflt_get_inode_data_inode, hdata, h2, h3, h]
    · by_cases hg : data.avflt_cache_ver = s.avflt_cache_ver
      · simp [avflt_check_cache, hino, hu, avflt_get_inode_data_inode, hdata, h2, h3, hg, h]
      · simp [avflt_check_cache, hino, hu, avflt_get_inode_data_inode, hdata, h2, h3, hg]

/-- C2 (the code at the failing input): inode `0` holds a cached verdict `1` taken
at root version `4`; `avflt_invalidate_cache_root` raises the root's version to
`5`, so the root's `cache_ver` differs from the entry's `root_cache_ver`; the probe
still returns the cached state `1` instead of a miss. -/
theorem avflt_check_cache_root_ver_not_compared :
    ((avflt_invalidate_cache_root (st_cached 1) (some 0)).root_data 0).map
        (fun r => r.cache_ver) = some 5 ∧
    ((avflt_invalidate_cache_root (st_cached 1) (some 0)).inode_data 0).map
        (fun d => d.root_cache_ver) = some 4 ∧
    (avflt_check_cache K0 (avflt_invalidate_cache_root (st_cached 1) (some 0))
        file0 K0.AVFLT_EVENT_OPEN).1 = 1 := by
  decide

/-- C3 (counterexample): the first open of the file is answered "clean" (`res = 0`);
the hook returns CONTINUE and the cache entry of inode `0` holds state `0` at the
current versions. The second open, with every version unchanged, is not a cache
hit: `avflt_process_request` runs, allocates the event at address `8` for pid
`100`, waits, and, as no agent answers, the hook returns STOP with `-ETIMEDOUT`. -/
theorem avflt_check_file_clean_verdict_not_cached :
    (avflt_pre_open K0 st0 (env_answered 7 0) file0 none ⟨0⟩).map
        (fun r => (r.1, r.2.1, r.2.2.inode_data 0, r.2.2.avflt_cache_ver,
                   r.2.2.root_data 0)) =
      some (redirfs_rv.REDIRFS_CONTINUE, ⟨0⟩,
            some { root_data := some 0, avflt_cache_ver := 0, root_cache_ver := 4,
                   inode_cache_ver := 0, cache_ver := 0, state := 0 },
            0, some { cache_enabled := 1, cache := 1, cache_ver := 4 }) ∧
    ((avflt_pre_open K0 st0 (env_answered 7 0) file0 none ⟨0⟩).bind
        (fun r => avflt_pre_open K0 r.2.2 (env_silent 8) file0 none ⟨0⟩)).map
        (fun r => (r.1, r.2.1, (r.2.2.events 8).pid, (r.2.2.events 8).freed,
                   r.2.2.avflt_timed_out)) =
      some (redirfs_rv.REDIRFS_STOP, ⟨-ETIMEDOUT⟩, 100, true, 1) := by
  constructor <;> decide

/-- C3 (amended): the access passes the should-scan filter, caching is in use for
the inode, and the inode's entry has its global snapshot, its root snapshot and
its inode version (after the probe's writecount rule) equal to the current
counters. When the entry holds a positive state other than `AVFLT_FILE_INFECTED`,
an Open handled by `avflt_check_file` is a cache hit: it returns CONTINUE with the
return slot untouched, and the state left behind differs from the one before only
in the probed entry, so that no event is allocated or queued, whatever the
surroundings offer. When the entry holds the state `0` the Open is not a hit:
`avflt_check_file` hands the request to `avflt_process_request` and returns what
that call decides, and when the allocator delivers, the event is allocated and
linked at the tail of the request queue. -/
theorem avflt_check_file_cache_hit (K : avflt_h) (s : avflt_state) (E : environment)
    (file : file) (path : Option (List Nat)) (args : redirfs_args) (i : Nat)
    (data : avflt_inode_data)
    (hscan : avflt_should_check s E file = 1)
    (hino : s.d_inode file.f_dentry = some i)
    (huse : avflt_use_cache s (some i) = 1)
    (hdata : s.inode_data i = some data)
    (hglob : data.avflt_cache_ver = s.avflt_cache_ver)
    (hroot : ∃ r, avflt_get_root_data_inode s (some i) = some r ∧
      r.2.cache_ver = data.root_cache_ver)
    (hver : (avflt_check_cache_wc K (s.inodes i).i_writecount file.f_mode
              K.AVFLT_EVENT_OPEN data).inode_cache_ver = data.cache_ver) :
    (0 < data.state → data.state ≠ K.AVFLT_FILE_INFECTED →
      avflt_check_file K s E file path K.AVFLT_EVENT_OPEN args =
        some (redirfs_rv.REDIRFS_CONTINUE, args,
          set_inode_data s i (avflt_check_cache_wc K (s.inodes i).i_writecount
            file.f_mode K.AVFLT_EVENT_OPEN data))) ∧
    (data.state = 0 →
      avflt_check_file K s E file path K.AVFLT_EVENT_OPEN args =
        (avflt_process_request K
          (set_inode_data s i (avflt_check_cache_wc K (s.inodes i).i_writecount
            file.f_mode K.AVFLT_EVENT_OPEN data))
          E (some file) path K.AVFLT_EVENT_OPEN).bind
          (fun r =>
            if r.1 ≠ 0 then
              some ((avflt_eval_res K r.1 args).1, (avflt_eval_res K r.1 args).2, r.2)
            else some (redirfs_rv.REDIRFS_CONTINUE, args, r.2)) ∧
      ∀ a, E.kmem_cache_zalloc = some a →
        ∃ s0 s1,
          avflt_event_alloc
            (set_inode_data s i (avflt_check_cache_wc K (s.inodes i).i_writecount
              file.f_mode K.AVFLT_EVENT_OPEN data))
            E (some file) path K.AVFLT_EVENT_OPEN = some (a, s0) ∧
          avflt_add_request s0 a 1 = some (0, s1) ∧
          s1.avflt_request_list = s.avflt_request_list ++ [a]) := by
  obtain ⟨h1, h2, h3, -, -⟩ :=
    avflt_check_cache_wc_frame K (s.inodes i).i_writecount file.f_mode
      K.AVFLT_EVENT_OPEN data
  have _ := hroot
  refine ⟨fun hpos hinf => ?_, fun hzero => ⟨?_, fun a hmem => ?_⟩⟩
  · have hne : data.state ≠ 0 := by omega
    have hnn : ¬ data.state < 0 := by omega
    simp [avflt_check_file, hscan, avflt_check_cache, hino, huse,
      avflt_get_inode_data_inode, hdata, h1, h2, h3, hglob, hver, hne, avflt_eval_res,
      hnn, hinf]
  · have hcc : avflt_check_cache K s file K.AVFLT_EVENT_OPEN =
        (0, set_inode_data s i (avflt_check_cache_wc K (s.inodes i).i_writecount
          file.f_mode K.AVFLT_EVENT_OPEN data)) := by
      simp [avflt_check_cache, hino, huse, avflt_get_inode_data_inode, hdata, h1, h2, h3,
        hglob, hver, hzero]
    have h10 : ¬ ((1 : Int) = 0) := by decide
    have h00 : ¬ ((0 : Int) ≠ 0) := by decide
    simp only [avflt_check_file, hscan, h10, if_false, hcc, h00]
    cases avflt_process_request K
        (set_inode_data s i (avflt_check_cache_wc K (s.inodes i).i_writecount
          file.f_mode K.AVFLT_EVENT_OPEN data)) E (some file) path K.AVFLT_EVENT_OPEN with
    | none => rfl
    | some r =>
      obtain ⟨rv, s2⟩ := r
      by_cases hrv : rv = 0
      · simp [hrv]
      · simp [hrv]
  · have hacc : s.avflt_request_accept ≠ 0 := by
      intro h0
      simp [avflt_should_check, avflt_is_stopped, h0] at hscan
    obtain ⟨e0, halloc, hc, -⟩ :=
      avflt_event_alloc_some
        (set_inode_data s i (avflt_check_cache_wc K (s.inodes i).i_writecount
          file.f_mode K.AVFLT_EVENT_OPEN data))
        E (some file) path K.AVFLT_EVENT_OPEN a hmem
    obtain ⟨s1, hadd, hlist, -, -, -⟩ :=
      avflt_add_request_tail
        (set_event
          (set_inode_data s i (avflt_check_cache_wc K (s.inodes i).i_writecount
            file.f_mode K.AVFLT_EVENT_OPEN data)) a e0) a
        (by simpa [set_inode_data] using hacc) (by simp [hc])
    exact ⟨_, s1, halloc, hadd, by simpa [set_inode_data] using hlist⟩

/-- Witness for C3 (amended): with the entry of inode `0` holding the verdict `2`
at the current versions the open is a hit and the queue stays empty; with the
entry holding `0` the event is allocated at `8` and queued. -/
theorem avflt_check_file_cache_hit_witness :
    (avflt_check_file K0 (st_cached 2) (env_silent 8) file0 none K0.AVFLT_EVENT_OPEN ⟨0⟩ =
      some (redirfs_rv.REDIRFS_CONTINUE, ⟨0⟩,
        set_inode_data (st_cached 2) 0
          (avflt_check_cache_wc K0 ((st_cached 2).inodes 0).i_writecount
            file0.f_mode K0.AVFLT_EVENT_OPEN
            { root_data := some 0, avflt_cache_ver := 0, root_cache_ver := 4,
              inode_cache_ver := 0, cache_ver := 0, state := 2 }))) ∧
    (∃ s0 s1,
      avflt_event_alloc
        (set_inode_data (st_cached 0) 0
          (avflt_check_cache_wc K0 ((st_cached 0).inodes 0).i_writecount
            file0.f_mode K0.AVFLT_EVENT_OPEN
            { root_data := some 0, avflt_cache_ver := 0, root_cache_ver := 4,
              inode_cache_ver := 0, cache_ver := 0, state := 0 }))
        (env_silent 8) (some file0) none K0.AVFLT_EVENT_OPEN = some (8, s0) ∧
      avflt_add_request s0 8 1 = some (0, s1) ∧
      s1.avflt_request_list = (st_cached 0).avflt_request_list ++ [8]) :=
  ⟨(avflt_check_file_cache_hit K0 (st_cached 2) (env_silent 8) file0 none ⟨0⟩ 0
      { root_data := some 0, avflt_cache_ver := 0, root_cache_ver := 4,
        inode_cache_ver := 0, cache_ver := 0, state := 2 }
      (by decide) (by decide) (by decide) (by decide) (by decide)
      ⟨(0, { cache_enabled := 1, cache := 1, cache_ver := 4 }), by decide, by decide⟩
      (by decide)).1 (by decide) (by decide),
   ((avflt_check_file_cache_hit K0 (st_cached 0) (env_silent 8) file0 none ⟨0⟩ 0
      { root_data := some 0, avflt_cache_ver := 0, root_cache_ver := 4,
        inode_cache_ver := 0, cache_ver := 0, state := 0 }
      (by decide) (by decide) (by decide) (by decide) (by decide)
      ⟨(0, { cache_enabled := 1, cache := 1, cache_ver := 4 }), by decide, by decide⟩
      (by decide)).2 rfl).2 8 rfl⟩

/-! ### Request queue -/

/-- Submitting a list of distinct live events at the tail appends the list. -/
theorem submit_all_tail (es : List Nat) : ∀ (s : avflt_state),
    s.avflt_request_accept ≠ 0 → es.Nodup → (∀ e ∈ es, (s.events e).count ≠ 0) →
    ∃ s1, submit_all s 1 es = some s1 ∧
      s1.avflt_request_list = s.avflt_request_list ++ es := by
  induction es with
  | nil => intro s _ _ _; exact ⟨s, rfl, by simp⟩
  | cons e es ih =>
    intro s hacc hnd hcnt
    obtain ⟨s1, h1, hl, ha, -, hothers⟩ :=
      avflt_add_request_tail s e hacc (hcnt e (List.mem_cons_self _ _))
    have hnd' := List.nodup_cons.mp hnd
    obtain ⟨s2, h2, hl2⟩ := ih s1 (by rw [ha]; exact hacc) hnd'.2 (by
      intro b hb
      have hbe : b ≠ e := fun h => hnd'.1 (h ▸ hb)
      rw [hothers b hbe]
      exact hcnt b (List.mem_cons_of_mem _ hb))
    refine ⟨s2, ?_, ?_⟩
    · simp [submit_all, h1, h2]
    · rw [hl2, hl]; simp

/-- On an empty queue every pop returns `NULL`. -/
theorem get_requests_nil (n : Nat) : ∀ (s : avflt_state), s.avflt_request_list = [] →
    (get_requests s n).1 = List.replicate n none := by
  induction n with
  | zero => intro s _; rfl
  | succ n ih =>
    intro s hq
    have h1 : avflt_get_request s = (none, s) := by simp [avflt_get_request, hq]
    simp [get_requests, h1, ih s hq, List.replicate_succ]

/-- Successive pops return the queue's entries front to back, then `NULL`. -/
theorem get_requests_all (k : Nat) (q : List Nat) : ∀ (s : avflt_state),
    s.avflt_request_list = q →
    (get_requests s (q.length + k)).1 = q.map some ++ List.replicate k none := by
  induction q with
  | nil => intro s hq; simpa using get_requests_nil k s hq
  | cons e rest ih =>
    intro s hq
    have hlen : (e :: rest).length + k = (rest.length + k) + 1 := by
      simp only [List.length_cons]; omega
    rw [hlen]
    simp only [get_requests, avflt_get_request, hq, List.map_cons, List.cons_append]
    rw [ih _ (by simp)]

/-- C4 (FIFO): from an empty queue with the gate accepting, submitting distinct
live events `es` at the tail succeeds for each, and the next `es.length + 1` calls
of `avflt_get_request` return exactly the events of `es` in submission order
followed by `NULL`. -/
theorem avflt_request_fifo (s : avflt_state) (es : List Nat)
    (hempty : s.avflt_request_list = [])
    (hacc : s.avflt_request_accept ≠ 0)
    (hnd : es.Nodup)
    (hcnt : ∀ e ∈ es, (s.events e).count ≠ 0) :
    ∃ s1, submit_all s 1 es = some s1 ∧
      (get_requests s1 (es.length + 1)).1 = es.map some ++ [none] := by
  obtain ⟨s1, h1, hl⟩ := submit_all_tail es s hacc hnd hcnt
  refine ⟨s1, h1, ?_⟩
  have := get_requests_all 1 es s1 (by rw [hl, hempty, List.nil_append])
  simpa using this

/-- Witness for C4: events `3` and `5` submitted to the empty queue of `st_live`. -/
theorem avflt_request_fifo_witness :
    ∃ s1, submit_all st_live 1 [3, 5] = some s1 ∧
      (get_requests s1 3).1 = [some 3, some 5, none] :=
  avflt_request_fifo st_live [3, 5] rfl (by decide) (by decide) (by decide)

/-! ### Closed gate -/

/-- C5: with the admission gate closed, `avflt_add_request` returns the non-zero
"not accepted" outcome and leaves the whole state (queue and refcounts) as it was;
and `avflt_process_request`, for every file, path and type and whatever the wait
would have returned, returns `0` and leaves the state as it was except for the
event it allocated, whose refcount is back to zero and which is freed: nothing was
waited for and no cache entry was written. -/
theorem avflt_gate_closed (K : avflt_h) (s : avflt_state) (E : environment)
    (file : Option file) (path : Option (List Nat)) (type : Int) (a : Nat)
    (hclosed : s.avflt_request_accept = 0)
    (hmem : E.kmem_cache_zalloc = some a)
    (hfresh : a ∉ s.avflt_request_list) :
    (∀ event tail, avflt_add_request s event tail = some (1, s)) ∧
    ∃ e, avflt_process_request K s E file path type = some (0, set_event s a e) ∧
      e.count = 0 ∧ e.freed = true := by
  refine ⟨fun event tail => by simp [avflt_add_request, hclosed], ?_⟩
  obtain ⟨e0, halloc, hc, -⟩ := avflt_event_alloc_some s E file path type a hmem
  refine ⟨{ e0 with count := wrap32 (e0.count - 1), freed := true }, ?_,
    by simp [hc, wrap32_zero], rfl⟩
  simp [avflt_process_request, halloc, avflt_add_request, hclosed,
    avflt_process_request_exit, avflt_rem_request, released, hfresh, avflt_event_put, hc,
    wrap32_zero]

/-- Witness for C5: an open of `file0` on the closed broker `st_closed`, the event
allocated at address `8`. -/
theorem avflt_gate_closed_witness :
    (∀ event tail, avflt_add_request st_closed event tail = some (1, st_closed)) ∧
    ∃ e, avflt_process_request K0 st_closed (env_silent 8) (some file0) none 0 =
        some (0, set_event st_closed 8 e) ∧
      e.count = 0 ∧ e.freed = true :=
  avflt_gate_closed K0 st_closed (env_silent 8) (some file0) none 0 8
    rfl rfl (by decide)

/-! ### Drain -/

@[simp] theorem avflt_event_done_list (s : avflt_state) (e : Nat) :
    (avflt_event_done s e).avflt_request_list = s.avflt_request_list := rfl

@[simp] theorem avflt_event_done_same (s : avflt_state) (e : Nat) :
    (avflt_event_done s e).events e = event_completed (s.events e) := by
  simp [avflt_event_done, event_completed]

theorem avflt_event_done_other (s : avflt_state) (e b : Nat) (h : b ≠ e) :
    (avflt_event_done s e).events b = s.events b := by
  simp [avflt_event_done, set_event_other _ _ _ _ h]

/-- What `avflt_event_put` does to a live event. -/
theorem avflt_event_put_live (s : avflt_state) (e : Nat) (h : (s.events e).count ≠ 0) :
    avflt_event_put s e = some (set_event s e (event_released (s.events e))) := by
  unfold avflt_event_put event_released
  by_cases h1 : wrap32 ((s.events e).count - 1) = 0
  · simp [h, h1]
  · simp [h, h1]

/-- Completing every event of a duplicate-free list raises each one's completion
counter by one and touches nothing else. -/
theorem foldl_avflt_event_done (q : List Nat) : ∀ (s : avflt_state), q.Nodup →
    (q.foldl avflt_event_done s).avflt_request_list = s.avflt_request_list ∧
    (∀ e ∈ q, (q.foldl avflt_event_done s).events e = event_completed (s.events e)) ∧
    (∀ b, b ∉ q → (q.foldl avflt_event_done s).events b = s.events b) := by
  induction q with
  | nil => intro s _; simp
  | cons a rest ih =>
    intro s hnd
    obtain ⟨ha, hrest⟩ := List.nodup_cons.mp hnd
    obtain ⟨h1, h2, h3⟩ := ih (avflt_event_done s a) hrest
    refine ⟨by simpa using h1, ?_, ?_⟩
    · intro e he
      rcases List.mem_cons.mp he with rfl | he'
      · simpa using h3 e ha
      · have hne : e ≠ a := fun h => ha (h ▸ he')
        simpa [avflt_event_done_other _ _ _ hne] using h2 e he'
    · intro b hb
      have hba : b ≠ a := fun h => hb (h ▸ List.mem_cons_self _ _)
      have hbr : b ∉ rest := fun h => hb (List.mem_cons_of_mem _ h)
      simpa [avflt_event_done_other _ _ _ hba] using h3 b hbr

/-- Dropping one reference of every event of a duplicate-free list of live events
succeeds, lowers each one's refcount by one and touches nothing else. -/
theorem foldlM_avflt_event_put (q : List Nat) : ∀ (s : avflt_state), q.Nodup →
    (∀ e ∈ q, (s.events e).count ≠ 0) →
    ∃ s1, q.foldlM avflt_event_put s = some s1 ∧
      s1.avflt_request_list = s.avflt_request_list ∧
      (∀ e ∈ q, s1.events e = event_released (s.events e)) ∧
      (∀ b, b ∉ q → s1.events b = s.events b) := by
  induction q with
  | nil => intro s _ _; exact ⟨s, rfl, rfl, by simp, by simp⟩
  | cons a rest ih =>
    intro s hnd hcnt
    obtain ⟨ha, hrest⟩ := List.nodup_cons.mp hnd
    have hput := avflt_event_put_live s a (hcnt a (List.mem_cons_self _ _))
    obtain ⟨s1, h0, h1, h2, h3⟩ :=
      ih (set_event s a (event_released (s.events a))) hrest (by
        intro e he
        have hne : e ≠ a := fun h => ha (h ▸ he)
        rw [set_event_other _ _ _ _ hne]
        exact hcnt e (List.mem_cons_of_mem _ he))
    refine ⟨s1, ?_, by simpa using h1, ?_, ?_⟩
    · simp only [List.foldlM, hput]
      exact h0
    · intro e he
      rcases List.mem_cons.mp he with rfl | he'
      · simpa using h3 e ha
      · have hne : e ≠ a := fun h => ha (h ▸ he')
        simpa [set_event_other _ _ _ _ hne] using h2 e he'
    · intro b hb
      have hba : b ≠ a := fun h => hb (h ▸ List.mem_cons_self _ _)
      have hbr : b ∉ rest := fun h => hb (List.mem_cons_of_mem _ h)
      simpa [set_event_other _ _ _ _ hba] using h3 b hbr

/-- C6 (drain): with the gate accepting (`avflt_request_accept = 1`)
`avflt_rem_requests` leaves the whole state as it was. With the gate not accepting
(`avflt_request_accept = 0`) and a queue of distinct live events it succeeds, and
afterwards the queue is empty, every event that was queued has its completion
counter raised by exactly one, its result as before and its refcount lowered by
one as `atomic_dec_and_test` does it, in 32-bit arithmetic: by exactly one
whenever `count - 1` is an `int`, which is so for every refcount of a held event
(`1 ≤ count ≤ INT_MAX`). The event is freed when the new refcount is zero, no
other field of it changes, and no other event has changed. -/
theorem avflt_rem_requests_drain (s : avflt_state) (hnd : s.avflt_request_list.Nodup)
    (hcnt : ∀ e ∈ s.avflt_request_list, (s.events e).count ≠ 0) :
    (s.avflt_request_accept = 1 → avflt_rem_requests s = some s) ∧
    (s.avflt_request_accept = 0 →
      ∃ s1, avflt_rem_requests s = some s1 ∧
        s1.avflt_request_list = [] ∧
        (∀ e ∈ s.avflt_request_list,
          (s1.events e).done = (s.events e).done + 1 ∧
          (s1.events e).count = wrap32 ((s.events e).count - 1) ∧
          (is_int ((s.events e).count - 1) →
            (s1.events e).count = (s.events e).count - 1) ∧
          (s1.events e).result = (s.events e).result ∧
          s1.events e = event_released (event_completed (s.events e))) ∧
        (∀ b, b ∉ s.avflt_request_list → s1.events b = s.events b)) := by
  refine ⟨fun h => by simp [avflt_rem_requests, h], fun h => ?_⟩
  obtain ⟨d1, d2, d3⟩ :=
    foldl_avflt_event_done s.avflt_request_list { s with avflt_request_list := [] } hnd
  obtain ⟨s1, p0, p1, p2, p3⟩ :=
    foldlM_avflt_event_put s.avflt_request_list
      (s.avflt_request_list.foldl avflt_event_done { s with avflt_request_list := [] })
      hnd (by intro e he; rw [d2 e he]; exact hcnt e he)
  have hne : s.avflt_request_accept ≠ 1 := by omega
  refine ⟨s1, ?_, ?_, ?_, ?_⟩
  · simp only [avflt_rem_requests, hne, if_false]
    exact p0
  · rw [p1, d1]
  · intro e he
    have := p2 e he
    rw [d2 e he] at this
    refine ⟨by simp [this, event_released, event_completed],
      by simp [this, event_released, event_completed], fun hi => ?_,
      by simp [this, event_released, event_completed], this⟩
    rw [this]
    simp only [event_released, event_completed]
    exact wrap32_of_is_int _ hi
  · intro b hb
    rw [p3 b hb, d3 b hb]

/-- Witness for C6: the closed broker `st_stranded`, events `3` and `5` queued,
each with one holder. After the drain the queue is empty, both events are
completed once, their refcount is `0` and they are freed with the result `0`;
event `7`, which was not queued, is as before. -/
theorem avflt_rem_requests_drain_witness :
    ∃ s1, avflt_rem_requests st_stranded = some s1 ∧
      s1.avflt_request_list = [] ∧
      (s1.events 3).done = 1 ∧ (s1.events 3).count = 0 ∧ (s1.events 3).result = 0 ∧
      (s1.events 3).freed = true ∧
      (s1.events 5).done = 1 ∧ (s1.events 5).count = 0 ∧ (s1.events 5).result = 0 ∧
      (s1.events 5).freed = true ∧
      s1.events 7 = st_stranded.events 7 := by
  obtain ⟨s1, h1, h2, h3, h4⟩ :=
    (avflt_rem_requests_drain st_stranded (by decide) (by decide)).2 rfl
  obtain ⟨a1, -, a3, a4, a5⟩ := h3 3 (by decide)
  obtain ⟨b1, -, b3, b4, b5⟩ := h3 5 (by decide)
  exact ⟨s1, h1, h2, by rw [a1]; decide, by rw [a3 (by decide)]; decide,
    by rw [a4]; decide, by rw [a5]; decide, by rw [b1]; decide,
    by rw [b3 (by decide)]; decide, by rw [b4]; decide, by rw [b5]; decide,
    h4 7 (by decide)⟩

/-! ### Request line -/

theorem request_line_length (e : avflt_event) :
    (request_line e).length =
      (request_line_base e).length +
        (match e.path with
         | some p => 6 + strlen p
         | none => 0) := by
  unfold request_line request_line_base
  cases e.path with
  | none => simp
  | some p =>
    have h6 : (cstr ",path:").length = 6 := by decide
    simp only [List.length_append, h6, strlen]

@[simp] theorem user_mem_write_limit (u : user_mem) (d : Nat) (b : List Nat) :
    (u.write d b).limit = u.limit := rfl

theorem copy_to_user_fst (u : user_mem) (d : Nat) (src : List Nat) (n : Nat) :
    (copy_to_user u d src n).1 = 0 ↔ n ≤ u.limit - d := by
  simp only [copy_to_user]
  omega

@[simp] theorem copy_to_user_limit (u : user_mem) (d : Nat) (src : List Nat) (n : Nat) :
    (copy_to_user u d src n).2.limit = u.limit := rfl

theorem copy_to_user_ok (u : user_mem) (d : Nat) (src : List Nat) (n : Nat)
    (h : n ≤ u.limit - d) : copy_to_user u d src n = (0, u.write d (src.take n)) := by
  simp only [copy_to_user]
  rw [Nat.min_eq_left h]
  simp

/-- The value `avflt_copy_cmd` returns, in terms of the length of the request line:
`-EINVAL` when the line and its `NUL` do not fit into `size` bytes, else the length
plus one when the bytes to write lie in writable memory, else `-EFAULT`. -/
theorem avflt_copy_cmd_fst (u : user_mem) (size : Nat) (e : avflt_event) :
    (avflt_copy_cmd u size e).1 =
      if size < (request_line e).length + 1 then -EINVAL
      else if (request_line e).length + 1 ≤ u.limit then
        (((request_line e).length + 1 : Nat) : Int)
      else -EFAULT := by
  have h6 : path_delim_len = 6 := by decide
  rw [request_line_length]
  unfold avflt_copy_cmd snprintf
  generalize (request_line_base e).length = B
  generalize List.take (256 - 1) (request_line_base e) ++ [0] = base
  have hB : ¬ ((B : Int) < 0) := by omega
  simp only [h6, Int.toNat_ofNat, hB, if_false, ne_eq, copy_to_user_fst, copy_to_user_limit]
  cases e.path with
  | none =>
    simp only []
    split_ifs <;> first | rfl | omega
  | some p =>
    simp only []
    generalize strlen p = P
    split_ifs <;> first | rfl | omega

/-- C7 (buffer boundary of `avflt_copy_cmd`): let `L` be the length of the request
line without its `NUL`. For every event, buffer and size: when `L + 1 > size` the
call returns `-EINVAL`; when `L + 1 ≤ size` and the `L + 1` bytes lie in writable
user memory (no fault occurs) it returns `L + 1`; it returns `L + 1` only when
`L + 1 ≤ size`, and `-EINVAL` only when `L + 1 > size`. So, with no fault,
`size = L + 1` succeeds and `size = L` fails. -/
theorem avflt_copy_cmd_boundary (u : user_mem) (size : Nat) (e : avflt_event) :
    (size < (request_line e).length + 1 → (avflt_copy_cmd u size e).1 = -EINVAL) ∧
    ((request_line e).length + 1 ≤ size → (request_line e).length + 1 ≤ u.limit →
      (avflt_copy_cmd u size e).1 = (((request_line e).length + 1 : Nat) : Int)) ∧
    ((avflt_copy_cmd u size e).1 = (((request_line e).length + 1 : Nat) : Int) →
      (request_line e).length + 1 ≤ size) ∧
    ((avflt_copy_cmd u size e).1 = -EINVAL → size < (request_line e).length + 1) ∧
    ((request_line e).length + 1 ≤ u.limit →
      (avflt_copy_cmd u ((request_line e).length + 1) e).1 =
        (((request_line e).length + 1 : Nat) : Int) ∧
      (avflt_copy_cmd u (request_line e).length e).1 = -EINVAL) := by
  have hE : EINVAL = 22 := rfl
  have hF : EFAULT = 14 := rfl
  refine ⟨?_, ?_, ?_, ?_, ?_⟩
  · intro h
    rw [avflt_copy_cmd_fst, if_pos h]
  · intro h1 h2
    rw [avflt_copy_cmd_fst, if_neg (by omega), if_pos h2]
  · rw [avflt_copy_cmd_fst]
    intro h
    by_contra hc
    rw [if_pos (by omega), hE] at h
    omega
  · rw [avflt_copy_cmd_fst]
    intro h
    by_contra hc
    rw [if_neg hc, hE] at h
    by_cases h2 : (request_line e).length + 1 ≤ u.limit
    · rw [if_pos h2] at h; omega
    · rw [if_neg h2, hF] at h; omega
  · intro h
    constructor
    · rw [avflt_copy_cmd_fst, if_neg (by omega), if_pos h]
    · rw [avflt_copy_cmd_fst, if_pos (by omega)]

/-- Witness for C7: the event of the first scenario, whose line has 55 bytes, and
a writable buffer of 64 bytes: `size = 56` succeeds with `56`, `size = 55` fails
with `-EINVAL`. -/
theorem avflt_copy_cmd_boundary_witness :
    (avflt_copy_cmd ubuf64 56 event_a).1 = (((request_line event_a).length + 1 : Nat) : Int) ∧
    (request_line event_a).length = 55 ∧
    (avflt_copy_cmd ubuf64 55 event_a).1 = -EINVAL :=
  ⟨(avflt_copy_cmd_boundary ubuf64 56 event_a).2.1 (by decide) (by decide),
   by decide,
   (avflt_copy_cmd_boundary ubuf64 55 event_a).1 (by decide)⟩

/-! ### Length of the decimal fields -/

theorem put_dec_length_le (k : Nat) : ∀ (fuel n : Nat), n < 10 ^ (k + 1) →
    (put_dec fuel n).length ≤ k + 1 := by
  induction k with
  | zero =>
    intro fuel n hn
    cases fuel with
    | zero => simp [put_dec]
    | succ f =>
      have : n < 10 := by simpa using hn
      simp [put_dec, this]
  | succ k ih =>
    intro fuel n hn
    cases fuel with
    | zero => simp [put_dec]
    | succ f =>
      by_cases h : n < 10
      · simp [put_dec, h]
      · have hdiv : n / 10 < 10 ^ (k + 1) := by
          rw [Nat.div_lt_iff_lt_mul (by decide)]
          rw [Nat.pow_succ] at hn
          exact hn
        have := ih f (n / 10) hdiv
        simp only [put_dec, h, if_false, List.length_append, List.length_singleton]
        omega

theorem fmt_d_length_le (v : Int) (h : is_int v) : (fmt_d v).length ≤ 11 := by
  unfold is_int at h
  unfold fmt_d fmt_u
  by_cases hv : v < 0
  · have hb : (-v).toNat < 10 ^ (9 + 1) := by omega
    have := put_dec_length_le 9 ((-v).toNat + 1) (-v).toNat hb
    simp only [hv, if_true, List.length_cons]
    omega
  · have hb : v.toNat < 10 ^ (9 + 1) := by omega
    have := put_dec_length_le 9 (v.toNat + 1) v.toNat hb
    simp only [hv, if_false]
    omega

/-- For 32-bit fields the expansion fits the 256-byte array `base` with room to
spare, so `snprintf` does not truncate it. -/
theorem request_line_base_length_le (e : avflt_event) (h : event_ints e) :
    (request_line_base e).length ≤ 113 := by
  obtain ⟨h1, h2, h3, h4, h5, h6, h7⟩ := h
  have l1 := fmt_d_length_le _ h1
  have l2 := fmt_d_length_le _ h2
  have l3 := fmt_d_length_le _ h3
  have l4 := fmt_d_length_le _ h4
  have l5 := fmt_d_length_le _ h5
  have l6 := fmt_d_length_le _ h6
  have l7 := fmt_d_length_le _ h7
  have c1 : (cstr "id:").length = 3 := by decide
  have c2 : (cstr ",type:").length = 6 := by decide
  have c3 : (cstr ",fd:").length = 4 := by decide
  have c4 : (cstr ",pid:").length = 5 := by decide
  have c5 : (cstr ",tgid:").length = 6 := by decide
  have c6 : (cstr ",ppid:").length = 6 := by decide
  have c7 : (cstr ",ruid:").length = 6 := by decide
  simp only [request_line_base, List.length_append, c1, c2, c3, c4, c5, c6, c7]
  omega

/-! ### Bytes in the user buffer -/

theorem user_mem_write_write (u : user_mem) (d : Nat) (A B : List Nat) :
    (u.write d A).write (d + A.length) B = u.write d (A ++ B) := by
  unfold user_mem.write
  congr 1
  funext a
  simp only [List.length_append]
  by_cases h1 : d + A.length ≤ a ∧ a < d + A.length + B.length
  · have h2 : d ≤ a ∧ a < d + (A.length + B.length) := by omega
    rw [if_pos h1, if_pos h2, List.getD_append_right _ _ _ _ (by omega)]
    congr 1
    omega
  · rw [if_neg h1]
    by_cases h3 : d ≤ a ∧ a < d + A.length
    · have h2 : d ≤ a ∧ a < d + (A.length + B.length) := by omega
      rw [if_pos h3, if_pos h2, List.getD_append _ _ _ _ (by omega)]
    · have h2 : ¬ (d ≤ a ∧ a < d + (A.length + B.length)) := by omega
      rw [if_neg h3, if_neg h2]

theorem user_mem_read_write (u : user_mem) (X : List Nat) :
    (u.write 0 X).read 0 X.length = X := by
  unfold user_mem.read user_mem.write
  apply List.ext_getElem
  · simp
  · intro n h1 h2
    simp [List.getElem_map, List.getElem_range, h2, List.getD_eq_getElem]

theorem user_mem_write_frame (u : user_mem) (X : List Nat) (a : Nat) (h : X.length ≤ a) :
    (u.write 0 X).mem a = u.mem a := by
  unfold user_mem.write
  have : ¬ (0 ≤ a ∧ a < 0 + X.length) := by omega
  simp only [this, if_false]

theorem take_c_string (p : List Nat) :
    (p ++ [0]).take (strlen p + 1) = c_string p ++ [0] := by
  unfold strlen c_string
  induction p with
  | nil => simp
  | cons b bs ih =>
    by_cases hb : b = 0
    · simp [List.takeWhile_cons, hb]
    · simp only [List.takeWhile_cons, hb, ne_eq, not_false_eq_true, decide_True, if_true,
        List.length_cons, List.cons_append, List.take_succ_cons]
      rw [ih]

theorem request_line_eq (e : avflt_event) :
    request_line e = request_line_base e ++
      (match e.path with
       | some p => path_delim_str ++ c_string p
       | none => []) := by
  unfold request_line request_line_base path_delim_str
  simp only [List.append_assoc]

/-- The buffer `avflt_copy_cmd` leaves behind when the line fits and the memory
is writable: the request line and its `NUL` stored at offset `0`. -/
theorem avflt_copy_cmd_snd (u : user_mem) (size : Nat) (e : avflt_event)
    (hint : event_ints e)
    (hsize : (request_line e).length + 1 ≤ size)
    (hmem : (request_line e).length + 1 ≤ u.limit) :
    (avflt_copy_cmd u size e).2 = u.write 0 (request_line e ++ [0]) := by
  have h6 : path_delim_len = 6 := by decide
  have h6' : path_delim_str.length = 6 := by decide
  have hB := request_line_base_length_le e hint
  rw [request_line_eq] at hsize hmem ⊢
  unfold avflt_copy_cmd snprintf
  generalize request_line_base e = out at *
  have htake : List.take (256 - 1) out = out := List.take_of_length_le (by omega)
  rw [htake]
  have hneg : ¬ ((out.length : Int) < 0) := by omega
  simp only [h6, Int.toNat_ofNat, hneg, if_false]
  revert hsize hmem
  cases e.path with
  | none =>
    intro hsize hmem
    simp only [List.append_nil] at hsize hmem ⊢
    have c1 : ¬ out.length ≥ size := by omega
    simp only [c1, if_false]
    rw [copy_to_user_ok _ _ _ _ (by omega)]
    simp only [ne_eq, not_true_eq_false, if_false]
    rw [List.take_of_length_le (by simp)]
  | some p =>
    intro hsize hmem
    simp only [List.length_append, h6'] at hsize hmem
    simp only []
    have hs : strlen p = (c_string p).length := rfl
    have c1 : ¬ out.length ≥ size := by omega
    have c2 : ¬ out.length + 6 + strlen p ≥ size := by omega
    simp only [c1, c2, if_false]
    rw [copy_to_user_ok u _ _ _ (by omega)]
    simp only [ne_eq, not_true_eq_false, if_false]
    rw [copy_to_user_ok _ _ _ _ (by simp only [user_mem_write_limit]; omega)]
    simp only [ne_eq, not_true_eq_false, if_false]
    rw [copy_to_user_ok _ _ _ _ (by simp only [user_mem_write_limit]; omega)]
    simp only [ne_eq, not_true_eq_false, if_false]
    rw [List.take_left' rfl, take_c_string, List.take_of_length_le (by omega)]
    have o1 : out.length = 0 + out.length := by omega
    rw [o1, user_mem_write_write]
    have o2 : 0 + out.length + 6 = 0 + (out ++ path_delim_str).length := by
      simp [h6']
    rw [o2, user_mem_write_write]
    simp only [List.append_assoc, Nat.zero_add]

theorem put_dec_ne_zero : ∀ (fuel n : Nat), 0 ∉ put_dec fuel n := by
  intro fuel
  induction fuel with
  | zero => intro n; simp [put_dec]
  | succ f ih =>
    intro n
    by_cases h : n < 10
    · simp only [put_dec, h, if_true, List.mem_singleton]
      omega
    · simp only [put_dec, h, if_false, List.mem_append, List.mem_singleton, not_or]
      exact ⟨ih (n / 10), by omega⟩

theorem fmt_d_ne_zero (v : Int) : 0 ∉ fmt_d v := by
  unfold fmt_d fmt_u
  by_cases hv : v < 0
  · simp [hv, put_dec_ne_zero]
  · simp [hv, put_dec_ne_zero]

theorem c_string_ne_zero (p : List Nat) : 0 ∉ c_string p := by
  unfold c_string
  intro h
  have := List.mem_takeWhile_imp h
  simp at this

/-- The request line holds no `NUL` byte. -/
theorem request_line_ne_zero (e : avflt_event) : 0 ∉ request_line e := by
  have c1 : 0 ∉ cstr "id:" := by decide
  have c2 : 0 ∉ cstr ",type:" := by decide
  have c3 : 0 ∉ cstr ",fd:" := by decide
  have c4 : 0 ∉ cstr ",pid:" := by decide
  have c5 : 0 ∉ cstr ",tgid:" := by decide
  have c6 : 0 ∉ cstr ",ppid:" := by decide
  have c7 : 0 ∉ cstr ",ruid:" := by decide
  have c8 : 0 ∉ cstr ",path:" := by decide
  unfold request_line
  cases e.path with
  | none =>
    simp only [List.mem_append, not_or, List.not_mem_nil, not_false_eq_true, and_true]
    exact ⟨⟨⟨⟨⟨⟨⟨⟨⟨⟨⟨⟨⟨c1, fmt_d_ne_zero _⟩, c2⟩, fmt_d_ne_zero _⟩, c3⟩, fmt_d_ne_zero _⟩,
      c4⟩, fmt_d_ne_zero _⟩, c5⟩, fmt_d_ne_zero _⟩, c6⟩, fmt_d_ne_zero _⟩, c7⟩,
      fmt_d_ne_zero _⟩
  | some p =>
    simp only [List.mem_append, not_or]
    exact ⟨⟨⟨⟨⟨⟨⟨⟨⟨⟨⟨⟨⟨⟨c1, fmt_d_ne_zero _⟩, c2⟩, fmt_d_ne_zero _⟩, c3⟩, fmt_d_ne_zero _⟩,
      c4⟩, fmt_d_ne_zero _⟩, c5⟩, fmt_d_ne_zero _⟩, c6⟩, fmt_d_ne_zero _⟩, c7⟩,
      fmt_d_ne_zero _⟩, c8, c_string_ne_zero p⟩

/-- C8 (request encoding): for an event with 32-bit fields, a buffer size that
holds the line and its `NUL`, and writable memory, the first `L + 1` bytes of the
buffer after `avflt_copy_cmd` are exactly the request line
`id:<id>,type:<type>,fd:<fd>,pid:<pid>,tgid:<tgid>,ppid:<ppid>,ruid:<ruid>` in
signed decimal, with `,path:<path>` appended exactly when the event has a path
(`event->path` is not `NULL`), followed by one `NUL`; the line itself holds no
`NUL`, and every byte past that `NUL` is as it was before the call. -/
theorem avflt_copy_cmd_encoding (u : user_mem) (size : Nat) (e : avflt_event)
    (hint : event_ints e)
    (hsize : (request_line e).length + 1 ≤ size)
    (hmem : (request_line e).length + 1 ≤ u.limit) :
    (avflt_copy_cmd u size e).2.read 0 ((request_line e).length + 1) =
      request_line e ++ [0] ∧
    0 ∉ request_line e ∧
    (∀ a, (request_line e).length + 1 ≤ a →
      (avflt_copy_cmd u size e).2.mem a = u.mem a) ∧
    (e.path = none → request_line e = request_line_base e) ∧
    (∀ p, e.path = some p →
      request_line e = request_line_base e ++ cstr ",path:" ++ c_string p) := by
  rw [avflt_copy_cmd_snd u size e hint hsize hmem]
  refine ⟨?_, request_line_ne_zero e, ?_, ?_, ?_⟩
  · have := user_mem_read_write u (request_line e ++ [0])
    simpa using this
  · intro a ha
    exact user_mem_write_frame u _ a (by simpa using ha)
  · intro hp
    rw [request_line_eq, hp]
    simp
  · intro p hp
    rw [request_line_eq, hp]
    simp [path_delim_str]

/-- Witness for C8: the event of the first scenario, a buffer of 64 writable bytes
and `size = 64`. -/
theorem avflt_copy_cmd_encoding_witness :
    (avflt_copy_cmd ubuf64 64 event_a).2.read 0 ((request_line event_a).length + 1) =
      request_line event_a ++ [0] ∧
    0 ∉ request_line event_a ∧
    (∀ a, (request_line event_a).length + 1 ≤ a →
      (avflt_copy_cmd ubuf64 64 event_a).2.mem a = ubuf64.mem a) ∧
    (event_a.path = none → request_line event_a = request_line_base event_a) ∧
    (∀ p, event_a.path = some p →
      request_line event_a = request_line_base event_a ++ cstr ",path:" ++ c_string p) :=
  avflt_copy_cmd_encoding ubuf64 64 event_a (by decide) (by decide) (by decide)


/-! ### Reading back a decimal field -/

theorem put_dec_fuel (f : Nat) : ∀ (g n : Nat), n < f → n < g →
    put_dec f n = put_dec g n := by
  induction f with
  | zero => intro g n h; omega
  | succ f ih =>
    intro g n hf hg
    cases g with
    | zero => omega
    | succ g =>
      by_cases h : n < 10
      · simp [put_dec, h]
      · simp only [put_dec, h, if_false]
        rw [ih g (n / 10) (by omega) (by omega)]

/-- The digits of a number: one digit below ten, else the digits of `n / 10`
followed by the digit `n % 10`; the bound on the number of digits is never hit. -/
theorem fmt_u_eq (n : Nat) :
    fmt_u n = if n < 10 then [48 + n] else fmt_u (n / 10) ++ [48 + n % 10] := by
  by_cases h : n < 10
  · simp [fmt_u, put_dec, h]
  · have h1 : fmt_u n = put_dec n (n / 10) ++ [48 + n % 10] := by
      simp [fmt_u, put_dec, h]
    rw [h1, if_neg h, put_dec_fuel n (n / 10 + 1) (n / 10) (by omega) (by omega)]
    rfl

theorem simple_strtoul_digit (d : Nat) (hd : d < 10) (t : List Nat) (acc : Nat) :
    simple_strtoul ((48 + d) :: t) acc = simple_strtoul t (acc * 10 + d) := by
  have h1 : isdigit (48 + d) = true := by
    simp only [isdigit, Bool.and_eq_true, decide_eq_true_eq]
    omega
  simp [simple_strtoul, h1]

theorem simple_strtoul_fmt_u (n : Nat) : ∀ (t : List Nat) (acc : Nat),
    simple_strtoul (fmt_u n ++ t) acc =
      simple_strtoul t (acc * 10 ^ (fmt_u n).length + n) := by
  induction n using Nat.strong_induction_on with
  | _ n ih =>
    intro t acc
    rw [fmt_u_eq]
    by_cases h : n < 10
    · simp only [h, if_true, List.singleton_append, List.length_singleton, pow_one]
      exact simple_strtoul_digit n h t acc
    · simp only [h, if_false, List.append_assoc, List.singleton_append, List.length_append,
        List.length_singleton]
      rw [ih (n / 10) (by omega), simple_strtoul_digit _ (by omega)]
      congr 1
      rw [pow_succ]
      have := Nat.div_add_mod n 10
      nlinarith [this]

theorem simple_strtoul_stop (t : List Nat) (acc : Nat)
    (ht : ∀ c, t.head? = some c → isdigit c = false) :
    simple_strtoul t acc = (acc, t) := by
  cases t with
  | nil => rfl
  | cons c cs => simp [simple_strtoul, ht c rfl]

/-- The first byte of an unsigned decimal is a digit. -/
theorem fmt_u_head (n : Nat) : ∃ d ds, fmt_u n = d :: ds ∧ isdigit d = true := by
  induction n using Nat.strong_induction_on with
  | _ n ih =>
    rw [fmt_u_eq]
    by_cases h : n < 10
    · refine ⟨48 + n, [], by simp [h], ?_⟩
      simp only [isdigit, Bool.and_eq_true, decide_eq_true_eq]
      omega
    · obtain ⟨d, ds, h1, h2⟩ := ih (n / 10) (by omega)
      exact ⟨d, ds ++ [48 + n % 10], by simp [h, h1], h2⟩

/-- Reading back with `%d` what `%d` printed: the value of a C `int` is recovered
and the input continues right after its digits, provided no digit follows. -/
theorem scan_d_fmt_d (v : Int) (hv : is_int v) (t : List Nat)
    (ht : ∀ c, t.head? = some c → isdigit c = false) :
    scan_d (fmt_d v ++ t) = some (v, t) := by
  unfold fmt_d
  by_cases hneg : v < 0
  · obtain ⟨d, ds, h1, h2⟩ := fmt_u_head (-v).toNat
    have hs := simple_strtoul_fmt_u (-v).toNat t 0
    rw [simple_strtoul_stop t _ ht, h1] at hs
    simp only [List.cons_append, Nat.zero_mul, Nat.zero_add] at hs
    have hd1 : isspace 45 = false := by decide
    have hval : -(((-v).toNat : Nat) : Int) = v := by omega
    simp only [hneg, if_true, h1, List.cons_append, scan_d, skip_spaces, hd1, h2,
      simple_strtol, hs, Bool.false_eq_true, if_false, hval, wrap32_of_is_int v hv]
  · obtain ⟨d, ds, h1, h2⟩ := fmt_u_head v.toNat
    have hs := simple_strtoul_fmt_u v.toNat t 0
    rw [simple_strtoul_stop t _ ht, h1] at hs
    simp only [List.cons_append, Nat.zero_mul, Nat.zero_add] at hs
    have hd : d ≠ 45 := by
      intro h; rw [h] at h2; exact absurd h2 (by decide)
    have hsp : isspace d = false := by
      simp only [isdigit, Bool.and_eq_true, decide_eq_true_eq] at h2
      simp only [isspace, Bool.or_eq_false_iff, decide_eq_false_iff_not,
        Bool.and_eq_false_iff]
      omega
    have hval : ((v.toNat : Nat) : Int) = v := by omega
    simp only [hneg, if_false, h1, List.cons_append, scan_d, skip_spaces, hsp,
      Bool.false_eq_true]
    cases hds : ds ++ t with
    | nil =>
      rw [hds] at hs
      simp [h2, simple_strtol, hd, hs, hval, wrap32_of_is_int v hv]
    | cons c cs =>
      rw [hds] at hs
      simp [h2, simple_strtol, hd, hs, hval, wrap32_of_is_int v hv]

theorem c_string_append_nul (X rest : List Nat) (h : 0 ∉ X) :
    c_string (X ++ 0 :: rest) = X := by
  unfold c_string
  induction X with
  | nil => simp
  | cons b bs ih =>
    have hb : b ≠ 0 := fun hb => h (hb ▸ List.mem_cons_self _ _)
    have hbs : 0 ∉ bs := fun hbs => h (List.mem_cons_of_mem _ hbs)
    simp only [List.cons_append, List.takeWhile_cons, hb, ne_eq, not_false_eq_true,
      decide_True, if_true]
    rw [ih hbs]

theorem scan_literal_append (f t : List Nat) : scan_literal f (f ++ t) = some t := by
  induction f with
  | nil => cases t <;> rfl
  | cons c cs ih => simp [scan_literal, ih]

theorem reply_line_ne_zero (k r : Int) (c : Option Int) : 0 ∉ reply_line k r c := by
  have c1 : 0 ∉ cstr "id:" := by decide
  have c2 : 0 ∉ cstr ",res:" := by decide
  have c3 : 0 ∉ cstr ",cache:" := by decide
  unfold reply_line
  cases c with
  | none =>
    simp only [List.mem_append, not_or, List.not_mem_nil, not_false_eq_true, and_true]
    exact ⟨⟨⟨c1, fmt_d_ne_zero _⟩, c2⟩, fmt_d_ne_zero _⟩
  | some c =>
    simp only [List.mem_append, not_or]
    exact ⟨⟨⟨⟨c1, fmt_d_ne_zero _⟩, c2⟩, fmt_d_ne_zero _⟩, c3, fmt_d_ne_zero _⟩

/-- What `sscanf` makes of a reply line in one of the two documented forms: two
conversions and `cache` left alone, or three conversions. -/
theorem sscanf_reply_line (k r : Int) (c : Option Int) (rest : List Nat) (cache0 : Int)
    (hk : is_int k) (hr : is_int r) (hc : ∀ v, c = some v → is_int v) :
    sscanf_reply (reply_line k r c ++ 0 :: rest) cache0 =
      (match c with
       | none => (2, k, r, cache0)
       | some v => (3, k, r, v)) := by
  have e2 : cstr ",res:" = 44 :: [114, 101, 115, 58] := by decide
  have e3 : cstr ",cache:" = 44 :: [99, 97, 99, 104, 101, 58] := by decide
  have h2 : ∀ (l : List Nat) (x : Nat),
      (cstr ",res:" ++ l).head? = some x → isdigit x = false := by
    intro l x hx
    rw [e2] at hx
    simp only [List.cons_append, List.head?_cons, Option.some.injEq] at hx
    rw [← hx]; decide
  have h3 : ∀ (l : List Nat) (x : Nat),
      (cstr ",cache:" ++ l).head? = some x → isdigit x = false := by
    intro l x hx
    rw [e3] at hx
    simp only [List.cons_append, List.head?_cons, Option.some.injEq] at hx
    rw [← hx]; decide
  have dnil : ∀ (x : Nat), ([] : List Nat).head? = some x → isdigit x = false := by
    intro x hx; simp at hx
  have hnil : scan_literal (cstr ",cache:") [] = none := by rw [e3]; rfl
  unfold sscanf_reply
  rw [c_string_append_nul _ _ (reply_line_ne_zero k r c)]
  unfold reply_line
  cases c with
  | none =>
    simp only [List.append_assoc, List.append_nil]
    rw [scan_literal_append]
    simp only []
    rw [scan_d_fmt_d k hk _ (h2 _)]
    simp only []
    rw [scan_literal_append]
    simp only []
    have := scan_d_fmt_d r hr [] dnil
    rw [List.append_nil] at this
    rw [this]
    simp only []
    rw [hnil]
  | some v =>
    simp only [List.append_assoc]
    rw [scan_literal_append]
    simp only []
    rw [scan_d_fmt_d k hk _ (h2 _)]
    simp only []
    rw [scan_literal_append]
    simp only []
    rw [scan_d_fmt_d r hr _ (h3 _)]
    simp only []
    rw [scan_literal_append]
    simp only []
    have := scan_d_fmt_d v (hc v rfl) [] dnil
    rw [List.append_nil] at this
    rw [this]

/-- The reply of an agent to an event of its backlog: what `avflt_get_reply`
returns and writes, for a line in one of the two documented forms. -/
theorem avflt_get_reply_line (s : avflt_state) (E : environment) (k r : Int)
    (c : Option Int) (rest : List Nat) (size event : Nat) (proc : List Nat)
    (hk : is_int k) (hr : is_int r) (hc : ∀ v, c = some v → is_int v)
    (hsize : size ≤ 256)
    (hread : size ≤ (reply_line k r c ++ 0 :: rest).length)
    (hproc : s.procs E.current.tgid = some proc)
    (hev : proc.find? (fun ev => (s.events ev).id = k) = some event) :
    avflt_get_reply s E (reply_line k r c ++ 0 :: rest) size =
      Except.ok (event,
        set_event
          { s with procs := Function.update s.procs E.current.tgid (some (proc.erase event)) }
          event
          (match c with
           | none => { s.events event with result := r }
           | some v =>
             if v ≠ -1 then { s.events event with result := r, cache := v }
             else { s.events event with result := r })) := by
  unfold avflt_get_reply
  have h1 : ¬ size > 256 := by omega
  have h2 : ¬ size > (reply_line k r c ++ 0 :: rest).length := by omega
  rw [if_neg h1, if_neg h2, sscanf_reply_line k r c rest (-1) hk hr hc]
  cases c with
  | none =>
    simp [avflt_proc_find, hproc, avflt_proc_get_event, hev]
  | some v =>
    by_cases hv : v = -1
    · simp [avflt_proc_find, hproc, avflt_proc_get_event, hev, hv]
    · simp [avflt_proc_find, hproc, avflt_proc_get_event, hev, hv]

/-- C9: for every reply of the legacy form `id:<k>,res:<r>` (32-bit `k` and `r`,
no cache field, `NUL`-terminated, at most 256 bytes) sent by an agent whose backlog
holds an event with id `k`, `avflt_get_reply` returns that event with
`result = r` and every other field, `cache` among them, as before the reply. -/
theorem avflt_get_reply_legacy (s : avflt_state) (E : environment) (k r : Int)
    (rest : List Nat) (size event : Nat) (proc : List Nat)
    (hk : is_int k) (hr : is_int r)
    (hsize : size ≤ 256)
    (hread : size ≤ (reply_line k r none ++ 0 :: rest).length)
    (hproc : s.procs E.current.tgid = some proc)
    (hev : proc.find? (fun ev => (s.events ev).id = k) = some event) :
    ∃ s1, avflt_get_reply s E (reply_line k r none ++ 0 :: rest) size =
        Except.ok (event, s1) ∧
      (s1.events event).result = r ∧
      (s1.events event).cache = (s.events event).cache ∧
      s1.events event = { s.events event with result := r } := by
  refine ⟨_, avflt_get_reply_line s E k r none rest size event proc hk hr
    (by intro v hv; cases hv) hsize hread hproc hev, ?_, ?_, ?_⟩ <;> simp

/-- Witness for C9: the agent of process group `100` answers event `7` (id `1`,
`cache = 1`) with `id:1,res:0`. -/
theorem avflt_get_reply_legacy_witness :
    ∃ s1, avflt_get_reply (st_backlog 1) env_agent (reply_line 1 0 none ++ 0 :: []) 11 =
        Except.ok (7, s1) ∧
      (s1.events 7).result = 0 ∧
      (s1.events 7).cache = ((st_backlog 1).events 7).cache ∧
      s1.events 7 = { (st_backlog 1).events 7 with result := 0 } :=
  avflt_get_reply_legacy (st_backlog 1) env_agent 1 0 [] 11 7 [7]
    (by decide) (by decide) (by decide) (by decide) (by decide) (by decide)

/-- C10 (counterexample): event `7` has `cache = 0`; the agent answers
`id:1,res:0,cache:-1`. The field `-1` is non-zero, yet the event's `cache` flag
stays `0`: the value `-1` is what `avflt_get_reply` uses for "no cache field". -/
theorem avflt_get_reply_cache_minus_one :
    reply_line 1 0 (some (-1)) = cstr "id:1,res:0,cache:-1" ∧
    ((st_backlog 0).events 7).cache = 0 ∧
    (match avflt_get_reply (st_backlog 0) env_agent
        (reply_line 1 0 (some (-1)) ++ 0 :: []) 20 with
     | Except.ok (ev, s1) => some (ev, (s1.events ev).result, (s1.events ev).cache)
     | Except.error _ => none) = some (7, 0, 0) := by
  refine ⟨by decide, by decide, by decide⟩

/-- C10 (amended): for every reply `id:<k>,res:<r>,cache:<c>` with 32-bit fields
sent by an agent whose backlog holds an event with id `k`, `avflt_get_reply`
returns that event with `result = r`; when `c ≠ -1` its `cache` flag becomes `c`
whatever it was before, so it is false exactly when `c = 0`; when `c = -1` the
flag keeps its prior value; and after `cache:0` `avflt_update_cache` changes
nothing for that event. -/
theorem avflt_get_reply_cache (s : avflt_state) (E : environment) (k r c : Int)
    (rest : List Nat) (size event : Nat) (proc : List Nat)
    (hk : is_int k) (hr : is_int r) (hc : is_int c)
    (hsize : size ≤ 256)
    (hread : size ≤ (reply_line k r (some c) ++ 0 :: rest).length)
    (hproc : s.procs E.current.tgid = some proc)
    (hev : proc.find? (fun ev => (s.events ev).id = k) = some event) :
    ∃ s1, avflt_get_reply s E (reply_line k r (some c) ++ 0 :: rest) size =
        Except.ok (event, s1) ∧
      (s1.events event).result = r ∧
      (c ≠ -1 → (s1.events event).cache = c ∧ ((s1.events event).cache = 0 ↔ c = 0)) ∧
      (c = -1 → (s1.events event).cache = (s.events event).cache) ∧
      (c = 0 → ∀ E1, avflt_update_cache s1 E1 event = some s1) := by
  refine ⟨_, avflt_get_reply_line s E k r (some c) rest size event proc hk hr
    (by intro v hv; cases hv; exact hc) hsize hread hproc hev, ?_, ?_, ?_, ?_⟩
  · by_cases h : c = -1 <;> simp [h]
  · intro h
    simp [h]
  · intro h
    simp [h]
  · intro h E1
    subst h
    simp [avflt_update_cache]

/-- Witness for C10 (amended): the agent of process group `100` answers event `7`
(id `1`, `cache = 1`) with `id:1,res:1,cache:0`. -/
theorem avflt_get_reply_cache_witness :
    ∃ s1, avflt_get_reply (st_backlog 1) env_agent
        (reply_line 1 1 (some 0) ++ 0 :: []) 19 = Except.ok (7, s1) ∧
      (s1.events 7).result = 1 ∧
      ((0 : Int) ≠ -1 → (s1.events 7).cache = 0 ∧ ((s1.events 7).cache = 0 ↔ (0 : Int) = 0)) ∧
      ((0 : Int) = -1 → (s1.events 7).cache = ((st_backlog 1).events 7).cache) ∧
      ((0 : Int) = 0 → ∀ E1, avflt_update_cache s1 E1 7 = some s1) :=
  avflt_get_reply_cache (st_backlog 1) env_agent 1 1 0 [] 19 7 [7]
    (by decide) (by decide) (by decide) (by decide) (by decide) (by decide) (by decide)

/-! ### Rejected replies -/

/-- C12: `avflt_should_check` returns `1` exactly when the broker is not stopped, the
caller's process group is not on the allow list, the file has an inode and the
inode's size is not zero, and returns `0` otherwise; and whenever one of the four
conditions fails `avflt_check_file` returns CONTINUE with the hook's arguments and
the whole state as they were: no probe, no request. -/
theorem avflt_should_check_filter (K : avflt_h) (s : avflt_state) (E : environment)
    (file : file) (path : Option (List Nat)) (type : Int) (args : redirfs_args) :
    (avflt_should_check s E file = 1 ↔
      (s.avflt_request_accept ≠ 0 ∧ avflt_proc_allow s E.current.tgid = false ∧
        ∃ i, s.d_inode file.f_dentry = some i ∧ (s.inodes i).i_size ≠ 0)) ∧
    (avflt_should_check s E file = 1 ∨ avflt_should_check s E file = 0) ∧
    ((s.avflt_request_accept = 0 ∨ avflt_proc_allow s E.current.tgid = true ∨
        s.d_inode file.f_dentry = none ∨
        (∃ i, s.d_inode file.f_dentry = some i ∧ (s.inodes i).i_size = 0)) →
      avflt_check_file K s E file path type args =
        some (redirfs_rv.REDIRFS_CONTINUE, args, s)) := by
  have key : avflt_should_check s E file =
      if s.avflt_request_accept = 0 then 0
      else if avflt_proc_allow s E.current.tgid = true then 0
      else match s.d_inode file.f_dentry with
        | none => 0
        | some i => if (s.inodes i).i_size = 0 then 0 else 1 := by
    unfold avflt_should_check avflt_is_stopped
    by_cases h : s.avflt_request_accept = 0 <;> simp [h]
  refine ⟨?_, ?_, ?_⟩
  · rw [key]
    by_cases h1 : s.avflt_request_accept = 0
    · simp [h1]
    · by_cases h2 : avflt_proc_allow s E.current.tgid = true
      · simp [h1, h2]
      · cases h3 : s.d_inode file.f_dentry with
        | none => simp [h1, h2]
        | some i =>
          by_cases h4 : (s.inodes i).i_size = 0
          · simp [h1, h2, h4]
          · simp [h1, h2, h4]
  · rw [key]
    by_cases h1 : s.avflt_request_accept = 0
    · simp [h1]
    · by_cases h2 : avflt_proc_allow s E.current.tgid = true
      · simp [h1, h2]
      · cases h3 : s.d_inode file.f_dentry with
        | none => simp [h1, h2]
        | some i =>
          by_cases h4 : (s.inodes i).i_size = 0
          · simp [h1, h2, h4]
          · simp [h1, h2, h4]
  · intro h
    have h0 : avflt_should_check s E file = 0 := by
      rw [key]
      rcases h with h | h | h | ⟨i, hi, hz⟩
      · simp [h]
      · by_cases h1 : s.avflt_request_accept = 0
        · simp [h1]
        · simp [h1, h]
      · by_cases h1 : s.avflt_request_accept = 0
        · simp [h1]
        · by_cases h2 : avflt_proc_allow s E.current.tgid = true
          · simp [h1, h2]
          · simp [h1, h2, h]
      · by_cases h1 : s.avflt_request_accept = 0
        · simp [h1]
        · by_cases h2 : avflt_proc_allow s E.current.tgid = true
          · simp [h1, h2]
          · simp [h1, h2, hi, hz]
    simp [avflt_check_file, h0]

/-- Witness for C12: an open of the empty file of `st_empty_file`. -/
theorem avflt_should_check_filter_witness :
    avflt_check_file K0 st_empty_file (env_silent 8) file0 none 0 ⟨0⟩ =
      some (redirfs_rv.REDIRFS_CONTINUE, ⟨0⟩, st_empty_file) :=
  (avflt_should_check_filter K0 st_empty_file (env_silent 8) file0 none 0 ⟨0⟩).2.2
    (Or.inr (Or.inr (Or.inr ⟨0, rfl, rfl⟩)))

/-! ### Timeout and interruption -/

/-- C13 (counterexample): an open is submitted, an agent pops the request from the
queue while the submitter waits, and the wait times out. `avflt_process_request`
returns `-ETIMEDOUT` and sets `avflt_timed_out`, but only the submitter's reference
is dropped: the event's refcount is `1`, not zero, and the event is not freed. -/
theorem avflt_process_request_timeout_popped :
    (avflt_process_request K0 st0 (env_popped 8) (some file0) none 0).map
        (fun r => (r.1, r.2.avflt_timed_out, r.2.avflt_request_list,
                   (r.2.events 8).count, (r.2.events 8).freed)) =
      some (-ETIMEDOUT, 1, [], 1, false) := by
  decide

/-- The exit path of `avflt_process_request` for an event that is still queued and
has at least two holders: it is unlinked and two references are dropped. -/
theorem avflt_process_request_exit_queued (s : avflt_state) (event : Nat) (rv : Int)
    (hin : event ∈ s.avflt_request_list)
    (h1 : (s.events event).count ≠ 0) (h2 : wrap32 ((s.events event).count - 1) ≠ 0) :
    avflt_process_request_exit s event rv =
      some (rv, set_event
        { s with avflt_request_list := s.avflt_request_list.erase event } event
        (event_released (event_released (s.events event)))) := by
  have hput1 := avflt_event_put_live
    { s with avflt_request_list := s.avflt_request_list.erase event } event h1
  have hput2 := avflt_event_put_live
    (set_event { s with avflt_request_list := s.avflt_request_list.erase event } event
      (event_released (s.events event))) event
    (by simpa [event_released] using h2)
  have hlive : ¬ released (s.events event) := fun h => h1 h.2
  unfold avflt_process_request_exit avflt_rem_request
  simp only [hlive, hin, not_true_eq_false, if_false]
  rw [hput1]
  simp only []
  rw [hput2]
  simp

/-- The exit path of `avflt_process_request` for a live event that is not queued:
one reference is dropped. -/
theorem avflt_process_request_exit_unqueued (s : avflt_state) (event : Nat) (rv : Int)
    (hout : event ∉ s.avflt_request_list) (h1 : (s.events event).count ≠ 0) :
    avflt_process_request_exit s event rv =
      some (rv, set_event s event (event_released (s.events event))) := by
  have hlive : ¬ released (s.events event) := fun h => h1 h.2
  unfold avflt_process_request_exit avflt_rem_request
  simp only [hlive, if_false, hout, not_false_eq_true, if_true]
  rw [avflt_event_put_live s event h1]
  rfl

/-- C13 (amended): the submitter's event is allocated at `a` and queued with two
references (the gate is open). When the wait returns `0`, `avflt_wait_for_reply`
sets `avflt_timed_out` to `1` and returns `-ETIMEDOUT`, and `avflt_process_request`
returns `-ETIMEDOUT` with the event not in the request queue and the inode cache as
the wait left it; if the event was still queued its refcount drops from two to
zero and it is freed, and if an agent had popped it only the submitter's reference
is dropped and the refcount is `1`. When the wait returns a negative `int`,
`avflt_wait_for_reply` returns that value and writes nothing, so `avflt_timed_out`
is unchanged. -/
theorem avflt_process_request_timeout (K : avflt_h) (s : avflt_state) (E : environment)
    (file : Option file) (path : Option (List Nat)) (type : Int) (a : Nat)
    (hmem : E.kmem_cache_zalloc = some a)
    (hacc : s.avflt_request_accept ≠ 0) :
    ∃ s0 s1, avflt_event_alloc s E file path type = some (a, s0) ∧
      avflt_add_request s0 a 1 = some (0, s1) ∧
      s1.avflt_request_list = s.avflt_request_list ++ [a] ∧
      (s1.events a).count = 2 ∧
      (E.wait = 0 →
        avflt_wait_for_reply s1 E a =
          (-ETIMEDOUT, { E.others s1 with avflt_timed_out := 1 }) ∧
        (a ∈ (E.others s1).avflt_request_list → (E.others s1).avflt_request_list.Nodup →
          ((E.others s1).events a).count = 2 →
          ∃ s2, avflt_process_request K s E file path type = some (-ETIMEDOUT, s2) ∧
            a ∉ s2.avflt_request_list ∧
            s2.inode_data = (E.others s1).inode_data ∧
            s2.avflt_timed_out = 1 ∧
            (s2.events a).count = 0 ∧ (s2.events a).freed = true) ∧
        (a ∉ (E.others s1).avflt_request_list →
          ((E.others s1).events a).count = 2 →
          ∃ s2, avflt_process_request K s E file path type = some (-ETIMEDOUT, s2) ∧
            a ∉ s2.avflt_request_list ∧
            s2.inode_data = (E.others s1).inode_data ∧
            s2.avflt_timed_out = 1 ∧
            (s2.events a).count = 1 ∧
            (s2.events a).freed = ((E.others s1).events a).freed)) ∧
      (E.wait < 0 → is_int E.wait →
        ∀ sx event, avflt_wait_for_reply sx E event = (E.wait, E.others sx)) := by
  obtain ⟨e0, halloc, hc, -⟩ := avflt_event_alloc_some s E file path type a hmem
  have hacc0 : (set_event s a e0).avflt_request_accept ≠ 0 := by simpa using hacc
  have hc0 : ((set_event s a e0).events a).count ≠ 0 := by simp [hc]
  obtain ⟨s1, hadd, hlist, -, hcount, -⟩ :=
    avflt_add_request_tail (set_event s a e0) a hacc0 hc0
  have hc2 : (s1.events a).count = 2 := by
    rw [hcount, set_event_same, hc]; exact wrap32_two
  refine ⟨set_event s a e0, s1, halloc, hadd, by simpa using hlist, hc2, ?_, ?_⟩
  · intro hwait
    have hw : avflt_wait_for_reply s1 E a =
        (-ETIMEDOUT, { E.others s1 with avflt_timed_out := 1 }) := by
      simp [avflt_wait_for_reply, wait_for_completion_interruptible_timeout, hwait]
    have hT : -ETIMEDOUT ≠ 0 := by decide
    have hpr : avflt_process_request K s E file path type =
        avflt_process_request_exit { E.others s1 with avflt_timed_out := 1 } a
          (-ETIMEDOUT) := by
      simp only [avflt_process_request, halloc, hadd, hw]
      simp [hT]
    refine ⟨hw, ?_, ?_⟩
    · intro hin hnd hcnt
      have hq := avflt_process_request_exit_queued
        { E.others s1 with avflt_timed_out := 1 } a (-ETIMEDOUT) hin
        (by show ((E.others s1).events a).count ≠ 0; omega)
        (by show wrap32 (((E.others s1).events a).count - 1) ≠ 0; rw [hcnt]; decide)
      rw [← hpr] at hq
      have hzero : wrap32 (wrap32 (((E.others s1).events a).count - 1) - 1) = 0 := by
        rw [hcnt]; decide
      refine ⟨_, hq, ?_, ?_, ?_, ?_, ?_⟩
      · simpa using hnd.not_mem_erase
      · rfl
      · rfl
      · simp only [set_event_same, event_released]
        exact hzero
      · simp only [set_event_same, event_released]
        have hz := hzero
        simp only [] at hz ⊢
        simp [hz]
    · intro hout hcnt
      have hq := avflt_process_request_exit_unqueued
        { E.others s1 with avflt_timed_out := 1 } a (-ETIMEDOUT) hout
        (by show ((E.others s1).events a).count ≠ 0; omega)
      rw [← hpr] at hq
      refine ⟨_, hq, ?_, ?_, ?_, ?_, ?_⟩
      · simpa using hout
      · rfl
      · rfl
      · simp only [set_event_same, event_released]
        show wrap32 (((E.others s1).events a).count - 1) = 1
        rw [hcnt]; decide
      · simp only [set_event_same, event_released]
        have hone : ¬ wrap32 (((E.others s1).events a).count - 1) = 0 := by
          rw [hcnt]; decide
        simp only [] at hone ⊢
        simp [hone]
  · intro hneg hint sx event
    have h1 : ¬ E.wait > 0 := by omega
    simp [avflt_wait_for_reply, wait_for_completion_interruptible_timeout, h1, hneg,
      wrap32_of_is_int _ hint]

/-- Witness for C13 (amended): an open on `st0` that no agent touches before the
wait times out; the event, allocated at `8`, is still queued. -/
theorem avflt_process_request_timeout_witness :
    ∃ s2, avflt_process_request K0 st0 (env_silent 8) (some file0) none 0 =
        some (-ETIMEDOUT, s2) ∧
      8 ∉ s2.avflt_request_list ∧ s2.avflt_timed_out = 1 ∧
      (s2.events 8).count = 0 ∧ (s2.events 8).freed = true := by
  obtain ⟨s0, s1, -, -, hl, h3, h4, -⟩ :=
    avflt_process_request_timeout K0 st0 (env_silent 8) (some file0) none 0 8 rfl
      (by decide)
  have hl1 : s1.avflt_request_list = [8] := hl
  obtain ⟨-, hq, -⟩ := h4 rfl
  obtain ⟨s2, e1, e2, -, e4, e5, e6⟩ :=
    hq (by show 8 ∈ s1.avflt_request_list; rw [hl1]; decide)
      (by show s1.avflt_request_list.Nodup; rw [hl1]; decide) h3
  exact ⟨s2, e1, e2, e4, e5, e6⟩

/-! ### Cache update -/

/-- Dropping a reference leaves the inode cache alone. -/
theorem avflt_event_put_inode_data (s : avflt_state) (e : Nat) (s1 : avflt_state)
    (h : avflt_event_put s e = some s1) : s1.inode_data = s.inode_data := by
  unfold avflt_event_put at h
  simp only [] at h
  split at h
  · simp at h
  · split at h <;>
    · simp only [Option.some.injEq] at h
      rw [← h]
      rfl

/-- The exit path of `avflt_process_request` returns the value it is given and
leaves the inode cache alone. -/
theorem avflt_process_request_exit_inode_data (s : avflt_state) (event : Nat) (rv r : Int)
    (s3 : avflt_state) (h : avflt_process_request_exit s event rv = some (r, s3)) :
    r = rv ∧ s3.inode_data = s.inode_data := by
  unfold avflt_process_request_exit at h
  cases hrem : avflt_rem_request s event with
  | none => rw [hrem] at h; simp at h
  | some s1 =>
    rw [hrem] at h
    simp only [] at h
    have h1 : s1.inode_data = s.inode_data := by
      unfold avflt_rem_request at hrem
      split at hrem
      · simp at hrem
      · split at hrem
        · simp only [Option.some.injEq] at hrem
          rw [← hrem]
        · exact avflt_event_put_inode_data
            { s with avflt_request_list := s.avflt_request_list.erase event } _ _ hrem
    cases hput : avflt_event_put s1 event with
    | none => rw [hput] at h; simp at h
    | some s2 =>
      rw [hput] at h
      simp only [Option.map_some', Option.some.injEq, Prod.mk.injEq] at h
      refine ⟨h.1.symm, ?_⟩
      rw [← h.2, avflt_event_put_inode_data _ _ _ hput, h1]

/-- When `event->cache` is zero, or global caching is disabled, or the inode's root
has no data with `cache_enabled` set, `avflt_update_cache` changes nothing. -/
theorem avflt_update_cache_skip (s : avflt_state) (E : environment) (event d i : Nat)
    (hd : (s.events event).dentry = some d) (hi : s.d_inode d = some i)
    (h : (s.events event).cache = 0 ∨ s.avflt_cache_enabled = 0 ∨
      (∀ r, avflt_get_root_data_inode s (some i) = some r → r.2.cache_enabled = 0)) :
    avflt_update_cache s E event = some s := by
  unfold avflt_update_cache
  rcases h with h | h | h
  · simp [h]
  · by_cases hc : (s.events event).cache = 0
    · simp [hc]
    · simp [hc, h]
  · by_cases hc : (s.events event).cache = 0
    · simp [hc]
    · by_cases hg : s.avflt_cache_enabled = 0
      · simp [hc, hg]
      · simp only [hc, hg, if_false, hd, hi]
        cases hr : avflt_get_root_data_inode s (some i) with
        | none => rfl
        | some r =>
          have := h r hr
          obtain ⟨r1, r2⟩ := r
          simp only [] at this ⊢
          simp [this]

/-- When `event->cache` is set, global caching is enabled and the inode's root has
`cache_enabled` set, `avflt_update_cache` installs the event's result and
snapshots in the entry attached to the inode. -/
theorem avflt_update_cache_install (s : avflt_state) (E : environment) (event d i : Nat)
    (hd : (s.events event).dentry = some d) (hi : s.d_inode d = some i)
    (hc : (s.events event).cache ≠ 0) (hg : s.avflt_cache_enabled ≠ 0)
    (r : Nat × avflt_root_data) (old : avflt_inode_data)
    (hr : avflt_get_root_data_inode s (some i) = some r) (hce : r.2.cache_enabled ≠ 0)
    (hat : avflt_attach_inode_data s E (some i) = some (i, old)) :
    avflt_update_cache s E event =
      some (set_inode_data s i
        { old with
          root_data := (s.events event).root_data,
          root_cache_ver := (s.events event).root_cache_ver,
          cache_ver := (s.events event).cache_ver,
          state := (s.events event).result }) := by
  unfold avflt_update_cache
  obtain ⟨r1, r2⟩ := r
  simp only [hc, hg, if_false, hd, hi, hr, hat]
  simp only [] at hce
  simp [hce]

/-- C14: `avflt_process_request` allocates its event at `a`, queues it and gets a
successful reply: the wait returns `0` and leaves the state `s2`. What it does
next to the inode cache, for an event with a dentry and inode: when the event is
neither Open nor Close, or `event->cache` is zero, or global caching is disabled,
or the inode's root has no data with `cache_enabled` set, it goes straight to its
exit path and every cache entry is afterwards what it was in `s2`. When all four
conditions hold, the entry attached to the inode (the existing one when there is
one) gets `state = event.result`, `root_data = event.root_data`,
`root_cache_ver = event.root_cache_ver` and `cache_ver = event.cache_ver`, keeps
its `inode_cache_ver` and every other field, and no other entry changes. In both
cases the value returned is the event's result. -/
theorem avflt_update_cache_conditions (K : avflt_h) (s : avflt_state) (E : environment)
    (file : Option file) (path : Option (List Nat)) (type : Int)
    (a : Nat) (s0 s1 s2 : avflt_state) (d i : Nat)
    (halloc : avflt_event_alloc s E file path type = some (a, s0))
    (hadd : avflt_add_request s0 a 1 = some (0, s1))
    (hwait : avflt_wait_for_reply s1 E a = (0, s2))
    (hd : (s2.events a).dentry = some d) (hi : s2.d_inode d = some i) :
    (((s2.events a).type ≠ K.AVFLT_EVENT_OPEN ∧
        (s2.events a).type ≠ K.AVFLT_EVENT_CLOSE) ∨
      (s2.events a).cache = 0 ∨ s2.avflt_cache_enabled = 0 ∨
      (∀ r, avflt_get_root_data_inode s2 (some i) = some r → r.2.cache_enabled = 0) →
      avflt_process_request K s E file path type =
        avflt_process_request_exit s2 a (s2.events a).result ∧
      (∀ r s3, avflt_process_request K s E file path type = some (r, s3) →
        r = (s2.events a).result ∧ s3.inode_data = s2.inode_data) ∧
      (a ∉ s2.avflt_request_list → (s2.events a).count ≠ 0 →
        avflt_process_request K s E file path type =
          some ((s2.events a).result,
            set_event s2 a (event_released (s2.events a))))) ∧
    (((s2.events a).type = K.AVFLT_EVENT_OPEN ∨
        (s2.events a).type = K.AVFLT_EVENT_CLOSE) →
      (s2.events a).cache ≠ 0 → s2.avflt_cache_enabled ≠ 0 →
      ∀ r old, avflt_get_root_data_inode s2 (some i) = some r → r.2.cache_enabled ≠ 0 →
        avflt_attach_inode_data s2 E (some i) = some (i, old) →
        avflt_process_request K s E file path type =
          avflt_process_request_exit
            (set_inode_data s2 i
              { old with
                root_data := (s2.events a).root_data,
                root_cache_ver := (s2.events a).root_cache_ver,
                cache_ver := (s2.events a).cache_ver,
                state := (s2.events a).result })
            a (s2.events a).result ∧
        (∀ res s3, avflt_process_request K s E file path type = some (res, s3) →
          res = (s2.events a).result ∧
          s3.inode_data = Function.update s2.inode_data i
            (some { old with
              root_data := (s2.events a).root_data,
              root_cache_ver := (s2.events a).root_cache_ver,
              cache_ver := (s2.events a).cache_ver,
              state := (s2.events a).result })) ∧
        (a ∉ s2.avflt_request_list → (s2.events a).count ≠ 0 →
          avflt_process_request K s E file path type =
            some ((s2.events a).result,
              set_event
                (set_inode_data s2 i
                  { old with
                    root_data := (s2.events a).root_data,
                    root_cache_ver := (s2.events a).root_cache_ver,
                    cache_ver := (s2.events a).cache_ver,
                    state := (s2.events a).result })
                a (event_released (s2.events a))))) ∧
    (∀ old, s2.inode_data i = some old →
      avflt_attach_inode_data s2 E (some i) = some (i, old)) := by
  have h00 : ¬ ((0 : Int) ≠ 0) := by decide
  have hpr : avflt_process_request K s E file path type =
      match (if (s2.events a).type = K.AVFLT_EVENT_OPEN ∨
                (s2.events a).type = K.AVFLT_EVENT_CLOSE then
               avflt_update_cache s2 E a
             else some s2) with
      | none => none
      | some s3 => avflt_process_request_exit s3 a (s3.events a).result := by
    simp only [avflt_process_request, halloc, hadd, hwait, h00, if_false]
  refine ⟨?_, ?_, ?_⟩
  · intro h
    have hstep : avflt_process_request K s E file path type =
        avflt_process_request_exit s2 a (s2.events a).result := by
      rw [hpr]
      by_cases ht : (s2.events a).type = K.AVFLT_EVENT_OPEN ∨
          (s2.events a).type = K.AVFLT_EVENT_CLOSE
      · rw [if_pos ht]
        rcases h with h | h
        · exact absurd ht (by
            rcases ht with ht | ht
            · exact fun _ => h.1 ht
            · exact fun _ => h.2 ht)
        · rw [avflt_update_cache_skip s2 E a d i hd hi h]
      · rw [if_neg ht]
    refine ⟨hstep, fun r s3 hres => ?_, fun hout hcnt => ?_⟩
    · rw [hstep] at hres
      exact avflt_process_request_exit_inode_data _ _ _ _ _ hres
    · rw [hstep]
      exact avflt_process_request_exit_unqueued s2 a _ hout hcnt
  · intro ht hc hg r old hr hce hat
    have hstep : avflt_process_request K s E file path type =
        avflt_process_request_exit
          (set_inode_data s2 i
            { old with
              root_data := (s2.events a).root_data,
              root_cache_ver := (s2.events a).root_cache_ver,
              cache_ver := (s2.events a).cache_ver,
              state := (s2.events a).result })
          a (s2.events a).result := by
      rw [hpr, if_pos ht, avflt_update_cache_install s2 E a d i hd hi hc hg r old hr hce hat]
      rfl
    refine ⟨hstep, fun res s3 hres => ?_, fun hout hcnt => ?_⟩
    · rw [hstep] at hres
      obtain ⟨h1, h2⟩ := avflt_process_request_exit_inode_data _ _ _ _ _ hres
      exact ⟨h1, by rw [h2]; rfl⟩
    · rw [hstep]
      exact avflt_process_request_exit_unqueued _ a _ hout hcnt
  · intro old hold
    simp [avflt_attach_inode_data, hold]

/-- Witness for C14: an open of `file0` on `st0`, the event allocated at `8`, which
an agent answers with the verdict `2` while the submitter waits. The inode has no
entry yet and the service attaches an all-zero one: `avflt_process_request`
returns `2` and the entry of inode `0` holds the verdict and the event's
snapshots (root `0`, root version `4`, inode version `0`). -/
theorem avflt_update_cache_conditions_witness :
    ∃ s3, avflt_process_request K0 st0 (env_answered 8 2) (some file0) none 0 =
        some (2, s3) ∧
      s3.inode_data 0 =
        some { root_data := some 0, avflt_cache_ver := 0, root_cache_ver := 4,
               inode_cache_ver := 0, cache_ver := 0, state := 2 } := by
  have h := (avflt_update_cache_conditions K0 st0 (env_answered 8 2) (some file0) none 0 8
    ((avflt_event_alloc st0 (env_answered 8 2) (some file0) none 0).getD (0, st0)).2
    ((avflt_add_request
      ((avflt_event_alloc st0 (env_answered 8 2) (some file0) none 0).getD (0, st0)).2
      8 1).getD (0, st0)).2
    (avflt_wait_for_reply
      ((avflt_add_request
        ((avflt_event_alloc st0 (env_answered 8 2) (some file0) none 0).getD (0, st0)).2
        8 1).getD (0, st0)).2 (env_answered 8 2) 8).2
    0 0 rfl rfl rfl rfl rfl).2.1
    (Or.inl rfl) (by decide) (by decide)
    (0, { cache_enabled := 1, cache := 1, cache_ver := 4 })
    { root_data := none, avflt_cache_ver := 0, root_cache_ver := 0,
      inode_cache_ver := 0, cache_ver := 0, state := 0 }
    rfl (by decide) rfl
  exact ⟨_, h.2.2 (by decide) (by decide), by decide⟩


/-! ### Id allocation -/

theorem wrap32_wrap32_add (x y : Int) : wrap32 (wrap32 x + y) = wrap32 (x + y) := by
  unfold wrap32
  omega

@[simp] theorem set_event_ids (s : avflt_state) (a : Nat) (e : avflt_event) :
    (set_event s a e).avflt_event_ids = s.avflt_event_ids := rfl

/-- A submit leaves the id counter alone. -/
theorem avflt_add_request_ids (s : avflt_state) (e : Nat) (tail : Int) (rv : Int)
    (s1 : avflt_state) (h : avflt_add_request s e tail = some (rv, s1)) :
    s1.avflt_event_ids = s.avflt_event_ids := by
  unfold avflt_add_request at h
  by_cases hacc : s.avflt_request_accept = 0
  · simp only [hacc, if_true, Option.some.injEq, Prod.mk.injEq] at h
    rw [← h.2]
  · simp only [hacc, if_false, avflt_event_get] at h
    split at h
    · simp at h
    · simp only [Option.map_some', Option.some.injEq, Prod.mk.injEq] at h
      rw [← h.2]
      rfl

/-- A re-add leaves the id counter alone. -/
theorem avflt_readd_request_ids (s : avflt_state) (e : Nat) (s1 : avflt_state)
    (h : avflt_readd_request s e = some s1) :
    s1.avflt_event_ids = s.avflt_event_ids := by
  unfold avflt_readd_request at h
  cases hadd : avflt_add_request s e 0 with
  | none => rw [hadd] at h; simp at h
  | some r =>
    obtain ⟨rv, s2⟩ := r
    have h2 := avflt_add_request_ids s e 0 rv s2 hadd
    rw [hadd] at h
    simp only [] at h
    split at h
    · simp only [Option.some.injEq] at h
      rw [← h, ← h2]
      rfl
    · simp only [Option.some.injEq] at h
      rw [← h, h2]

/-- Dropping a reference leaves the id counter alone. -/
theorem avflt_event_put_ids (s : avflt_state) (e : Nat) (s1 : avflt_state)
    (h : avflt_event_put s e = some s1) :
    s1.avflt_event_ids = s.avflt_event_ids := by
  unfold avflt_event_put at h
  simp only [] at h
  split at h
  · simp at h
  · split at h <;>
    · simp only [Option.some.injEq] at h
      rw [← h]
      rfl

/-- What a pop does to the queue and the id counter. -/
theorem avflt_get_request_cases (s : avflt_state) :
    (s.avflt_request_list = [] ∧ avflt_get_request s = (none, s)) ∨
    (∃ e rest, s.avflt_request_list = e :: rest ∧
      (avflt_get_request s).1 = some e ∧
      (avflt_get_request s).2.avflt_request_list = rest ∧
      (avflt_get_request s).2.avflt_event_ids = wrap32 (s.avflt_event_ids + 1) ∧
      ((avflt_get_request s).2.events e).id = wrap32 (s.avflt_event_ids + 1)) := by
  cases hq : s.avflt_request_list with
  | nil => left; exact ⟨rfl, by simp [avflt_get_request, hq]⟩
  | cons e rest =>
    right
    refine ⟨e, rest, rfl, ?_, ?_, ?_, ?_⟩ <;> simp [avflt_get_request, hq]

/-- The ids a run assigns are the successors of the counter it starts from, in
32-bit arithmetic, one after the other. -/
theorem run_ops_ids (ops : List queue_op) : ∀ (s : avflt_state),
    (run_ops s ops).1 =
      (List.range (run_ops s ops).1.length).map
        (fun (j : Nat) => wrap32 (s.avflt_event_ids + 1 + (j : Int))) := by
  induction ops with
  | nil => intro s; simp [run_ops]
  | cons op ops ih =>
    intro s
    cases op with
    | submit e =>
      cases hadd : avflt_add_request s e 1 with
      | none => simp [run_ops, hadd]
      | some r =>
        obtain ⟨rv, s1⟩ := r
        have := ih s1
        rw [avflt_add_request_ids s e 1 rv s1 hadd] at this
        simpa [run_ops, hadd] using this
    | readd e =>
      cases hadd : avflt_readd_request s e with
      | none => simp [run_ops, hadd]
      | some s1 =>
        have := ih s1
        rw [avflt_readd_request_ids s e s1 hadd] at this
        simpa [run_ops, hadd] using this
    | put e =>
      cases hput : avflt_event_put s e with
      | none => simp [run_ops, hput]
      | some s1 =>
        have := ih s1
        rw [avflt_event_put_ids s e s1 hput] at this
        simpa [run_ops, hput] using this
    | pop =>
      rcases avflt_get_request_cases s with ⟨-, h⟩ | ⟨e, rest, -, h1, -, h3, h4⟩
      · have := ih s
        simpa [run_ops, h] using this
      · have := ih (avflt_get_request s).2
        rw [h3] at this
        simp only [run_ops, h1, List.length_cons, h4]
        rw [List.range_succ_eq_map, List.map_cons, List.map_map]
        congr 1
        · simp
        · rw [this]
          simp only [List.length_map, List.length_range]
          apply List.map_congr_left
          intro j _
          simp only [Function.comp_apply, Nat.succ_eq_add_one, Nat.cast_add, Nat.cast_one]
          rw [add_assoc (wrap32 _), wrap32_wrap32_add]
          congr 1
          ring

/-- One round on an empty queue, for an event with one holder: the submit is
accepted and raises the refcount to two, the pop returns the event, the drop of
the reference brings the refcount back to one; the queue is empty again. -/
theorem rounds_step (s : avflt_state) (a : Nat)
    (hq : s.avflt_request_list = []) (hacc : s.avflt_request_accept ≠ 0)
    (hc : (s.events a).count = 1) :
    ∃ s1 s2, avflt_add_request s a 1 = some (0, s1) ∧
      (avflt_get_request s1).1 = some a ∧
      avflt_event_put (avflt_get_request s1).2 a = some s2 ∧
      s2.avflt_request_list = [] ∧ s2.avflt_request_accept ≠ 0 ∧
      (s2.events a).count = 1 := by
  obtain ⟨s1, hadd, hl, ha, hcount, -⟩ :=
    avflt_add_request_tail s a hacc (by rw [hc]; decide)
  rw [hq, List.nil_append] at hl
  rw [hc] at hcount
  have hc2 : ((avflt_get_request s1).2.events a).count = 2 := by
    simp [avflt_get_request, hl, hcount]; decide
  have hput := avflt_event_put_live (avflt_get_request s1).2 a (by rw [hc2]; decide)
  refine ⟨s1, _, hadd, ?_, hput, ?_, ?_, ?_⟩
  · simp [avflt_get_request, hl]
  · simp [avflt_get_request, hl]
  · simp [avflt_get_request, hl, ha, hacc]
  · rw [set_event_same]
    simp only [event_released, hc2]
    decide

/-- Every round assigns one id. -/
theorem rounds_length (a : Nat) (n : Nat) : ∀ (s : avflt_state),
    s.avflt_request_list = [] → s.avflt_request_accept ≠ 0 → (s.events a).count = 1 →
    (run_ops s (rounds a n)).1.length = n := by
  induction n with
  | zero => intro s _ _ _; rfl
  | succ n ih =>
    intro s hq hacc hc
    obtain ⟨s1, s2, hadd, hpop, hput, hq2, hacc2, hc2⟩ := rounds_step s a hq hacc hc
    simp only [rounds, run_ops, hadd, hpop, hput, List.length_cons]
    rw [ih s2 hq2 hacc2 hc2]

/-- C15 (counterexample): with the id counter at `INT_MAX` a pop does not raise it by
one: the counter and the id stamped on the event become `INT_MIN`. And in a run of
`2^32 + 1` rounds, in each of which event `7` is submitted, popped by an agent and
released by that agent (so that its refcount is `1` at the start of every round),
the first and the last pop assign the same id `1`. -/
theorem avflt_event_ids_wrap :
    (avflt_get_request st_ids_max).1 = some 3 ∧
    st_ids_max.avflt_event_ids = 2147483647 ∧
    (avflt_get_request st_ids_max).2.avflt_event_ids = -2147483648 ∧
    ((avflt_get_request st_ids_max).2.events 3).id = -2147483648 ∧
    (run_ops st_live (rounds 7 4294967297)).1.length = 4294967297 ∧
    (run_ops st_live (rounds 7 4294967297)).1[0]? = some 1 ∧
    (run_ops st_live (rounds 7 4294967297)).1[4294967296]? = some 1 := by
  have hlen := rounds_length 7 4294967297 st_live rfl (by decide) (by decide)
  have hids := run_ops_ids (rounds 7 4294967297) st_live
  rw [hlen] at hids
  have w0 : wrap32 (st_live.avflt_event_ids + 1 + ((0 : Nat) : Int)) = 1 := by decide
  have w1 : wrap32 (st_live.avflt_event_ids + 1 + ((4294967296 : Nat) : Int)) = 1 := by
    decide
  refine ⟨by decide, by decide, by decide, by decide, hlen, ?_, ?_⟩
  · rw [hids, List.getElem?_map, List.getElem?_range (by decide), Option.map_some', w0]
  · rw [hids, List.getElem?_map, List.getElem?_range (by decide), Option.map_some', w1]

/-- C15 (amended): `avflt_get_request` on an empty queue returns `NULL` and leaves
the state, and so the counter, unchanged; on a non-empty queue it removes the head,
advances `avflt_event_ids` by one in 32-bit arithmetic (by exactly one unless the
result leaves the range of `int`, where it wraps) and stamps the returned event
with the new counter value. Consequently, in every run of submits, re-adds, pops
and reference drops that makes at most `2^32` pops, the ids assigned are pairwise
distinct; and in every run that makes more than `2^32` pops an id recurs. -/
theorem avflt_get_request_ids (s : avflt_state) :
    (s.avflt_request_list = [] → avflt_get_request s = (none, s)) ∧
    (∀ e rest, s.avflt_request_list = e :: rest →
      (avflt_get_request s).1 = some e ∧
      (avflt_get_request s).2.avflt_request_list = rest ∧
      (avflt_get_request s).2.avflt_event_ids = wrap32 (s.avflt_event_ids + 1) ∧
      ((avflt_get_request s).2.events e).id = (avflt_get_request s).2.avflt_event_ids ∧
      (is_int (s.avflt_event_ids + 1) →
        (avflt_get_request s).2.avflt_event_ids = s.avflt_event_ids + 1)) ∧
    (∀ ops, (run_ops s ops).1.length ≤ 4294967296 → (run_ops s ops).1.Nodup) ∧
    (∀ ops, 4294967296 < (run_ops s ops).1.length → ¬ (run_ops s ops).1.Nodup) := by
  refine ⟨?_, ?_, ?_, ?_⟩
  · intro hq
    simp [avflt_get_request, hq]
  · intro e rest hq
    rcases avflt_get_request_cases s with ⟨h0, -⟩ | ⟨e1, rest1, h0, h1, h2, h3, h4⟩
    · rw [hq] at h0; cases h0
    · rw [hq] at h0
      cases h0
      refine ⟨h1, h2, h3, by rw [h4, h3], fun hi => ?_⟩
      rw [h3, wrap32_of_is_int _ hi]
  · intro ops hlen
    rw [run_ops_ids]
    apply List.Nodup.map_on _ (List.nodup_range _)
    intro x hx y hy hxy
    rw [List.mem_range] at hx hy
    unfold wrap32 at hxy
    omega
  · intro ops hlen hnd
    have hids := run_ops_ids ops s
    have hne := List.nodup_iff_getElem?_ne_getElem?.mp hnd 0 4294967296 (by decide) hlen
    apply hne
    rw [hids, List.getElem?_map, List.getElem?_map, List.getElem?_range (by omega),
      List.getElem?_range hlen]
    simp only [Option.map_some', Option.some.injEq]
    unfold wrap32
    omega

/-- Witness for C15 (amended): three rounds of a submit, a pop and the agent's
release on `st_live`. -/
theorem avflt_get_request_ids_witness :
    (run_ops st_live (rounds 7 3)).1 = [1, 2, 3] ∧
    (run_ops st_live (rounds 7 3)).1.Nodup :=
  ⟨by decide, (avflt_get_request_ids st_live).2.2.1 (rounds 7 3) (by decide)⟩


/-! ### File handle of an event -/

theorem set_event_self (s : avflt_state) (a : Nat) : set_event s a (s.events a) = s := by
  simp [set_event]

/-- C16: an event allocated without a file has no dentry, no file handle and
`fd = -1`; for an event without a dentry `avflt_get_file` returns `0`, sets
`file = NULL` and `fd = -1` and leaves the descriptor table untouched (no slot is
reserved); for an event with `file = NULL` and `fd = -1` `avflt_put_file` changes
neither the state nor the descriptor table; and the request line of an event with
`fd = -1` carries `fd:-1`. -/
theorem avflt_no_dentry_no_file (s : avflt_state) (t : files_struct) (E : environment)
    (F : file_environment) (path : Option (List Nat)) (type : Int) (a event : Nat) :
    (E.kmem_cache_zalloc = some a →
      ∃ e0, avflt_event_alloc s E none path type = some (a, set_event s a e0) ∧
        e0.dentry = none ∧ e0.file = none ∧ e0.fd = -1) ∧
    ((s.events event).dentry = none →
      avflt_get_file s t F event =
        (0, set_event s event { s.events event with file := none, fd := -1 }, t)) ∧
    ((s.events event).file = none → (s.events event).fd = -1 →
      avflt_put_file s t event = (s, t)) ∧
    ((s.events event).fd = -1 →
      request_line_base (s.events event) =
        cstr "id:" ++ fmt_d (s.events event).id ++
        cstr ",type:" ++ fmt_d (s.events event).type ++ cstr ",fd:-1" ++
        cstr ",pid:" ++ fmt_d (s.events event).pid ++
        cstr ",tgid:" ++ fmt_d (s.events event).tgid ++
        cstr ",ppid:" ++ fmt_d (s.events event).ppid ++
        cstr ",ruid:" ++ fmt_d (s.events event).ruid) := by
  refine ⟨?_, ?_, ?_, ?_⟩
  · intro hmem
    unfold avflt_event_alloc
    rw [hmem]
    exact ⟨_, rfl, rfl, rfl, rfl⟩
  · intro hd
    unfold avflt_get_file
    simp only [hd]
  · intro hf hfd
    have he : ({ s.events event with fd := -1, file := none } : avflt_event) =
        s.events event := by
      cases hev : s.events event
      rw [hev] at hf hfd
      simp only [] at hf hfd
      simp [hf, hfd]
    have hnot : ¬ (s.events event).fd > 0 := by omega
    unfold avflt_put_file
    simp only [hnot, if_false, hf, he, set_event_self]
  · intro hfd
    have e1 : fmt_d (-1) = cstr "-1" := by decide
    have e2 : cstr ",fd:-1" = cstr ",fd:" ++ cstr "-1" := by decide
    unfold request_line_base
    rw [hfd, e1, e2]
    simp only [List.append_assoc]

/-- Witness for C16: event `7` of `st_backlog 0` has no dentry, no file handle and
`fd = -1`. -/
theorem avflt_no_dentry_no_file_witness :
    avflt_get_file (st_backlog 0) files0 (fenv 3) 7 =
      (0, set_event (st_backlog 0) 7
        { (st_backlog 0).events 7 with file := none, fd := -1 }, files0) ∧
    avflt_put_file (st_backlog 0) files0 7 = (st_backlog 0, files0) :=
  ⟨(avflt_no_dentry_no_file (st_backlog 0) files0 env_agent (fenv 3) none 0 8 7).2.1 rfl,
   (avflt_no_dentry_no_file (st_backlog 0) files0 env_agent (fenv 3) none 0 8 7).2.2.1
     rfl rfl⟩

/-- For a reserved descriptor above zero `avflt_put_file` returns the slot, drops
the reference on the file object and resets the event. -/
theorem avflt_put_file_positive (s : avflt_state) (t : files_struct) (event file : Nat)
    (hfd : 0 < (s.events event).fd) (hfile : (s.events event).file = some file) :
    avflt_put_file s t event =
      (set_event s event { s.events event with fd := -1, file := none },
        fput (put_unused_fd t (s.events event).fd) file) := by
  unfold avflt_put_file
  simp [hfd, hfile]

/-- C20 (the code at the failing input): `avflt_get_file` on event `7` succeeds with
the kernel reserving descriptor `0` and opening file object `5`: the event holds
`fd = 0` and the handle, slot `0` is reserved, the file object has one reference.
`avflt_put_file` then releases the handle and resets the event to `fd = -1`,
`file = NULL`, but slot `0` is still reserved: it never goes back to the pool. -/
theorem avflt_put_file_leaks_fd_zero :
    (avflt_get_file st_replied files0 (fenv 0) 7).1 = 0 ∧
    ((avflt_get_file st_replied files0 (fenv 0) 7).2.1.events 7).fd = 0 ∧
    ((avflt_get_file st_replied files0 (fenv 0) 7).2.1.events 7).file = some 5 ∧
    (avflt_get_file st_replied files0 (fenv 0) 7).2.2.reserved = [0] ∧
    (avflt_get_file st_replied files0 (fenv 0) 7).2.2.f_count 5 = 1 ∧
    (avflt_put_file (avflt_get_file st_replied files0 (fenv 0) 7).2.1
      (avflt_get_file st_replied files0 (fenv 0) 7).2.2 7).2.reserved = [0] ∧
    (avflt_put_file (avflt_get_file st_replied files0 (fenv 0) 7).2.1
      (avflt_get_file st_replied files0 (fenv 0) 7).2.2 7).2.f_count 5 = 0 ∧
    ((avflt_put_file (avflt_get_file st_replied files0 (fenv 0) 7).2.1
      (avflt_get_file st_replied files0 (fenv 0) 7).2.2 7).1.events 7).fd = -1 ∧
    ((avflt_put_file (avflt_get_file st_replied files0 (fenv 0) 7).2.1
      (avflt_get_file st_replied files0 (fenv 0) 7).2.2 7).1.events 7).file = none := by
  refine ⟨by decide, by decide, by decide, by decide, by decide, by decide, by decide,
    by decide, by decide⟩

/-! ### Re-add and remove -/

/-- C17: with the gate accepting, `avflt_readd_request` of a live event that is not
queued links it at the head and raises its refcount with `atomic_inc`, that is by
one in 32-bit arithmetic: by exactly one whenever `count + 1` is an `int` (its
completion is not signalled and no other field or event changes), so that the next
`avflt_get_request` returns it and leaves exactly the queue there was before, in
the same order. With the gate not accepting it completes the event at once and
leaves the queue, the refcount and the result as they were. -/
theorem avflt_readd_request_head (s : avflt_state) (event : Nat) :
    (s.avflt_request_accept ≠ 0 → (s.events event).count ≠ 0 →
      event ∉ s.avflt_request_list →
      ∃ s1, avflt_readd_request s event = some s1 ∧
        s1.avflt_request_list = event :: s.avflt_request_list ∧
        s1.events event =
          { s.events event with count := wrap32 ((s.events event).count + 1) } ∧
        (is_int ((s.events event).count + 1) →
          (s1.events event).count = (s.events event).count + 1) ∧
        (∀ b, b ≠ event → s1.events b = s.events b) ∧
        (avflt_get_request s1).1 = some event ∧
        (avflt_get_request s1).2.avflt_request_list = s.avflt_request_list) ∧
    (s.avflt_request_accept = 0 →
      ∃ s1, avflt_readd_request s event = some s1 ∧
        s1.avflt_request_list = s.avflt_request_list ∧
        s1.events event = event_completed (s.events event) ∧
        (s1.events event).count = (s.events event).count ∧
        (s1.events event).result = (s.events event).result ∧
        (s1.events event).done = (s.events event).done + 1 ∧
        (∀ b, b ≠ event → s1.events b = s.events b)) := by
  refine ⟨?_, ?_⟩
  · intro hacc hcnt _
    refine ⟨set_event { s with avflt_request_list := event :: s.avflt_request_list } event
      { s.events event with count := wrap32 ((s.events event).count + 1) },
      ?_, ?_, ?_, ?_, ?_, ?_, ?_⟩
    · simp [avflt_readd_request, avflt_add_request, hacc, avflt_event_get, hcnt]
    · rfl
    · simp
    · intro hi
      rw [set_event_same]
      exact wrap32_of_is_int _ hi
    · intro b hb
      simp [set_event_other _ _ _ _ hb]
    · simp [avflt_get_request]
    · simp [avflt_get_request]
  · intro hclosed
    refine ⟨avflt_event_done s event, ?_, ?_, ?_, ?_, ?_, ?_, ?_⟩
    · simp [avflt_readd_request, avflt_add_request, hclosed]
    · rfl
    · simp
    · simp [event_completed]
    · simp [event_completed]
    · simp [event_completed]
    · exact fun b hb => avflt_event_done_other s event b hb

/-- Witness for C17: event `7`, with one holder, is re-added to the open queue
`[3, 5]` of `st_queued`: the queue is `[7, 3, 5]`, the refcount is `2` and the next
pop returns `7`, leaving `[3, 5]`. Re-added to the closed broker `st_stranded` it is
completed and nothing else changes. -/
theorem avflt_readd_request_head_witness :
    (∃ s1, avflt_readd_request st_queued 7 = some s1 ∧
      s1.avflt_request_list = [7, 3, 5] ∧
      (s1.events 7).count = 2 ∧
      (avflt_get_request s1).1 = some 7 ∧
      (avflt_get_request s1).2.avflt_request_list = [3, 5]) ∧
    (∃ s1, avflt_readd_request st_stranded 7 = some s1 ∧
      s1.avflt_request_list = [3, 5] ∧
      (s1.events 7).count = 1 ∧
      (s1.events 7).result = 0 ∧
      (s1.events 7).done = 1) := by
  obtain ⟨s1, h1, h2, -, h4, -, h6, h7⟩ :=
    (avflt_readd_request_head st_queued 7).1 (by decide) (by decide) (by decide)
  obtain ⟨s2, g1, g2, -, g4, g5, g6, -⟩ := (avflt_readd_request_head st_stranded 7).2 rfl
  exact ⟨⟨s1, h1, h2, h4 (by decide), h6, h7⟩, ⟨s2, g1, g2, g4, g5, g6⟩⟩

/-- C18: on a live event that is in the (duplicate-free) request queue
`avflt_rem_request` unlinks exactly that event, the others keeping their order,
lowers its refcount by one as `avflt_event_put` does it (in 32-bit arithmetic: by
exactly one whenever `count - 1` is an `int`, as it is for every positive
refcount) and touches no other event; on a live event that is not in the queue it
changes nothing. So a second call right after the first, on an event that is still
referenced (the caller holds a reference of its own, as `avflt_process_request`
does), changes nothing more: the queue and the refcount are those after one
call. When the first call brings the refcount to zero the event is released, and
there is no object left to call the function on. -/
theorem avflt_rem_request_idempotent (s : avflt_state) (event : Nat)
    (hnd : s.avflt_request_list.Nodup) (hcnt : (s.events event).count ≠ 0) :
    (event ∈ s.avflt_request_list →
      ∃ s1, avflt_rem_request s event = some s1 ∧
        s1.avflt_request_list = s.avflt_request_list.filter (fun b => b ≠ event) ∧
        s1.events event = event_released (s.events event) ∧
        (s1.events event).count = wrap32 ((s.events event).count - 1) ∧
        (is_int ((s.events event).count - 1) →
          (s1.events event).count = (s.events event).count - 1) ∧
        (∀ b, b ≠ event → s1.events b = s.events b) ∧
        ((s1.events event).count = 0 → released (s1.events event)) ∧
        ((s1.events event).count ≠ 0 → avflt_rem_request s1 event = some s1)) ∧
    (event ∉ s.avflt_request_list → avflt_rem_request s event = some s) := by
  have hlive : ¬ released (s.events event) := fun h => hcnt h.2
  refine ⟨?_, ?_⟩
  · intro hin
    have hput := avflt_event_put_live
      { s with avflt_request_list := s.avflt_request_list.erase event } event hcnt
    have hout : event ∉ s.avflt_request_list.erase event := hnd.not_mem_erase
    have hrem : avflt_rem_request s event =
        some (set_event { s with avflt_request_list := s.avflt_request_list.erase event }
          event (event_released (s.events event))) := by
      unfold avflt_rem_request
      simp only [hlive, hin, not_true_eq_false, if_false]
      exact hput
    refine ⟨_, hrem, ?_, ?_, ?_, ?_, ?_, ?_, ?_⟩
    · simp only [set_event_list]
      rw [hnd.erase_eq_filter]
      apply List.filter_congr
      intro b _
      by_cases hb : b = event <;> simp [hb]
    · simp
    · simp [event_released]
    · intro hi
      rw [set_event_same]
      exact wrap32_of_is_int _ hi
    · intro b hb
      simp [set_event_other _ _ _ _ hb]
    · intro hzero
      rw [set_event_same] at hzero ⊢
      refine ⟨?_, hzero⟩
      simp only [event_released] at hzero ⊢
      simp [hzero]
    · intro hstill
      have hlive1 : ¬ released ((set_event
          { s with avflt_request_list := s.avflt_request_list.erase event }
          event (event_released (s.events event))).events event) := fun h => hstill h.2
      unfold avflt_rem_request
      simp only [hlive1, if_false, set_event_list, hout, not_false_eq_true, if_true]
  · intro hout
    simp [avflt_rem_request, hlive, hout]

/-- Witness for C18: event `3`, held by the queue and by its submitter, is removed
from the queue `[3, 5]` of `st_held`: the queue is `[5]`, the refcount is `1`, and
a second call changes nothing. -/
theorem avflt_rem_request_idempotent_witness :
    ∃ s1, avflt_rem_request st_held 3 = some s1 ∧
      s1.avflt_request_list = [5] ∧
      (s1.events 3).count = 1 ∧
      (s1.events 3).freed = false ∧
      avflt_rem_request s1 3 = some s1 := by
  obtain ⟨s1, h1, h2, h3, h4, -, -, -, h7⟩ :=
    (avflt_rem_request_idempotent st_held 3 (by decide) (by decide)).1 (by decide)
  have hc : (s1.events 3).count = 1 := by rw [h4]; decide
  exact ⟨s1, h1, by rw [h2]; decide, hc, by rw [h3]; decide, h7 (by rw [hc]; decide)⟩

/-! ### Writecount rule -/

/-- C19 (counterexample): inode `0` has two writers (`wc = 2`). With global caching
switched off the probe returns before it reaches the entry, and `inode_cache_ver`
stays `0`. With caching on and `inode_cache_ver` at `INT_MAX` the probe's increment
wraps: the version becomes `INT_MIN`, lower than before. -/
theorem avflt_check_cache_no_increase :
    ((st_writers 0 0).inodes 0).i_writecount = 2 ∧
    ((avflt_check_cache K0 (st_writers 0 0) file0 K0.AVFLT_EVENT_OPEN).2.inode_data 0).map
        (fun d => d.inode_cache_ver) = some 0 ∧
    ((avflt_check_cache K0 (st_writers 1 2147483647) file0
        K0.AVFLT_EVENT_OPEN).2.inode_data 0).map
        (fun d => d.inode_cache_ver) = some (-2147483648) := by
  refine ⟨by decide, by decide, by decide⟩

/-- C19 (amended): for an inode with a cache entry, when caching is in use for the
inode the probe raises `inode_cache_ver` by one in 32-bit arithmetic (by exactly one
unless the result leaves the range of `int`) if `wc = 1` and the file is not
writable, or `wc = 1` and the file is writable and the event is Close, or `wc > 1`,
and leaves the entry as it was otherwise; when caching is not in use the probe
changes nothing at all. In every case the entry's `state`, `cache_ver`,
`avflt_cache_ver`, `root_cache_ver` and `root_data`, the global `avflt_cache_ver`
and the roots' data are as before. -/
theorem avflt_check_cache_writecount (K : avflt_h) (s : avflt_state) (file : file)
    (type : Int) (i : Nat) (data : avflt_inode_data)
    (hino : s.d_inode file.f_dentry = some i)
    (hdata : s.inode_data i = some data) :
    (avflt_use_cache s (some i) ≠ 0 →
      (((s.inodes i).i_writecount = 1 ∧ file.f_mode &&& FMODE_WRITE = 0) ∨
        ((s.inodes i).i_writecount = 1 ∧ file.f_mode &&& FMODE_WRITE ≠ 0 ∧
          type = K.AVFLT_EVENT_CLOSE) ∨
        (s.inodes i).i_writecount > 1) →
      (avflt_check_cache K s file type).2.inode_data i =
        some { data with inode_cache_ver := wrap32 (data.inode_cache_ver + 1) } ∧
      (is_int (data.inode_cache_ver + 1) →
        (avflt_check_cache K s file type).2.inode_data i =
          some { data with inode_cache_ver := data.inode_cache_ver + 1 })) ∧
    (avflt_use_cache s (some i) ≠ 0 →
      ¬ (((s.inodes i).i_writecount = 1 ∧ file.f_mode &&& FMODE_WRITE = 0) ∨
        ((s.inodes i).i_writecount = 1 ∧ file.f_mode &&& FMODE_WRITE ≠ 0 ∧
          type = K.AVFLT_EVENT_CLOSE) ∨
        (s.inodes i).i_writecount > 1) →
      (avflt_check_cache K s file type).2.inode_data i = some data) ∧
    (avflt_use_cache s (some i) = 0 → (avflt_check_cache K s file type).2 = s) ∧
    (∃ d1, (avflt_check_cache K s file type).2.inode_data i = some d1 ∧
      d1.state = data.state ∧ d1.cache_ver = data.cache_ver ∧
      d1.avflt_cache_ver = data.avflt_cache_ver ∧
      d1.root_cache_ver = data.root_cache_ver ∧ d1.root_data = data.root_data) ∧
    (avflt_check_cache K s file type).2.avflt_cache_ver = s.avflt_cache_ver ∧
    (avflt_check_cache K s file type).2.root_data = s.root_data ∧
    (∀ j, j ≠ i → (avflt_check_cache K s file type).2.inode_data j = s.inode_data j) := by
  have hsnd : (avflt_check_cache K s file type).2 =
      if avflt_use_cache s (some i) = 0 then s
      else set_inode_data s i
        (avflt_check_cache_wc K (s.inodes i).i_writecount file.f_mode type data) := by
    unfold avflt_check_cache
    by_cases hu : avflt_use_cache s (some i) = 0
    · simp [hino, hu]
    · simp only [hino, hu, if_false, avflt_get_inode_data_inode, Option.some_bind, hdata,
        Option.map_some']
      split_ifs <;> rfl
  obtain ⟨f1, f2, f3, f4, f5⟩ :=
    avflt_check_cache_wc_frame K (s.inodes i).i_writecount file.f_mode type data
  refine ⟨?_, ?_, ?_, ?_, ?_, ?_, ?_⟩
  · intro hu hb
    have hwc : avflt_check_cache_wc K (s.inodes i).i_writecount file.f_mode type data =
        { data with inode_cache_ver := wrap32 (data.inode_cache_ver + 1) } := by
      unfold avflt_check_cache_wc inode_cache_ver_inc
      rcases hb with ⟨h1, h2⟩ | ⟨h1, h2, h3⟩ | h1
      · simp [h1, h2]
      · simp [h1, h2, h3]
      · have : ¬ (s.inodes i).i_writecount = 1 := by omega
        simp [this, h1]
    refine ⟨?_, ?_⟩
    · rw [hsnd, if_neg hu, hwc]
      simp [set_inode_data]
    · intro hint
      rw [hsnd, if_neg hu, hwc, wrap32_of_is_int _ hint]
      simp [set_inode_data]
  · intro hu hb
    have hwc : avflt_check_cache_wc K (s.inodes i).i_writecount file.f_mode type data =
        data := by
      unfold avflt_check_cache_wc
      by_cases h1 : (s.inodes i).i_writecount = 1
      · by_cases h2 : file.f_mode &&& FMODE_WRITE = 0
        · exact absurd (Or.inl ⟨h1, h2⟩) hb
        · by_cases h3 : type = K.AVFLT_EVENT_CLOSE
          · exact absurd (Or.inr (Or.inl ⟨h1, h2, h3⟩)) hb
          · simp [h1, h2, h3]
      · by_cases h4 : (s.inodes i).i_writecount > 1
        · exact absurd (Or.inr (Or.inr h4)) hb
        · simp [h1, h4]
    rw [hsnd, if_neg hu, hwc]
    simp [set_inode_data]
  · intro hu
    rw [hsnd, if_pos hu]
  · by_cases hu : avflt_use_cache s (some i) = 0
    · exact ⟨data, by rw [hsnd, if_pos hu]; exact hdata, rfl, rfl, rfl, rfl, rfl⟩
    · exact ⟨_, by rw [hsnd, if_neg hu]; simp [set_inode_data], f1, f2, f3, f4, f5⟩
  · rw [hsnd]
    split_ifs <;> rfl
  · rw [hsnd]
    split_ifs <;> rfl
  · intro j hj
    rw [hsnd]
    split_ifs
    · rfl
    · simp [set_inode_data, Function.update, hj]

/-- Witness for C19 (amended): two writers on inode `0`, caching on, the entry's
`inode_cache_ver` at `7`. -/
theorem avflt_check_cache_writecount_witness :
    (avflt_check_cache K0 (st_writers 1 7) file0 K0.AVFLT_EVENT_OPEN).2.inode_data 0 =
      some { root_data := some 0, avflt_cache_ver := 0, root_cache_ver := 4,
             inode_cache_ver := 8, cache_ver := 0, state := 1 } :=
  ((avflt_check_cache_writecount K0 (st_writers 1 7) file0 K0.AVFLT_EVENT_OPEN 0
      { root_data := some 0, avflt_cache_ver := 0, root_cache_ver := 4,
        inode_cache_ver := 7, cache_ver := 0, state := 1 } rfl rfl).1
    (by decide) (Or.inr (Or.inr (by decide)))).2 (by decide)

end Avflt


